import Mathlib

/-!
# DCU control state machine

A shallow embedding of `dcu/Src/controlStateMachine.c` and of the enumerations of
`Inc/controlStateMachine.h`.

* State and event tags are `uint32_t` values in C; they are natural numbers here.  No
  arithmetic is done on them, so no wrap-around can occur.
* The C globals (`ButtonHVEnabled`, `buzzerTimerStarted`, `alreadyDebouncing`, ...) are the
  fields of `World`; every call that leaves the translation unit is recorded, in order, in
  `World.trace`.
* What the outside returns to the code (the status of the CAN send, the result of
  `xTimerStart`, the reported HV / EM status, the sampled pin level) is read from `Env`.
* The engine of `state_machine.c` (table lookup, commit of the new state) is not part of the
  tree; it is modelled from the specification and marked as such.
-/

namespace DCU

/-! ## Enumerations of `Inc/controlStateMachine.h` -/

def STATE_Self_Check : Nat := 0
def STATE_HV_Disable : Nat := 1
def STATE_HV_Enable : Nat := 2
def STATE_Precharge : Nat := 3
def STATE_Discharge : Nat := 4
def STATE_Failure_Fatal : Nat := 5
/-- Wildcard state, "must be the last state". -/
def STATE_ANY : Nat := 6

def EV_Init : Nat := 0
def EV_HV_Toggle : Nat := 1
def EV_Precharge_Finished : Nat := 2
def EV_Discharge_Finished : Nat := 3
def EV_PrechargeDischarge_Fail : Nat := 4
def EV_HV_Fault : Nat := 5
/-- Wildcard event, "must be the last event". -/
def EV_ANY : Nat := 6

/-- The tags that `controlStateMachine.c` uses but that the header does not declare.  Their
numeric values are not fixed by any file of the tree, so they are a parameter of the model. -/
structure DcuTags where
  STATE_HV_Toggle : Nat
  STATE_EM_Toggle : Nat
  STATE_EM_Enable : Nat
  EV_CAN_Recieve : Nat
  EV_EM_Toggle : Nat
  deriving DecidableEq, Repr

/-- The state tags named by the table are pairwise different and none of them is the
wildcard; likewise the event tags.  Enumerators of one C enumeration with consecutive
values satisfy this. -/
def DcuTags.Distinct (t : DcuTags) : Prop :=
  [STATE_HV_Disable, t.STATE_HV_Toggle, STATE_HV_Enable, t.STATE_EM_Toggle,
    t.STATE_EM_Enable, STATE_ANY].Nodup ∧
  [EV_HV_Toggle, t.EV_EM_Toggle, t.EV_CAN_Recieve, EV_ANY].Nodup

instance (t : DcuTags) : Decidable t.Distinct := by
  unfold DcuTags.Distinct; infer_instance

/-- One assignment of the undeclared tags: they are numbered after the enumerators of the
header, so that every name stands for a different number. -/
def sampleTags : DcuTags :=
  { STATE_HV_Toggle := 7, STATE_EM_Toggle := 8, STATE_EM_Enable := 9,
    EV_CAN_Recieve := 7, EV_EM_Toggle := 8 }

/-- The two button pins of `bsp.h`, which is not part of the tree. -/
structure Pins where
  HV_TOGGLE_BUTTON_PIN : Nat
  EM_TOGGLE_BUTTON_PIN : Nat
  deriving DecidableEq, Repr

def samplePins : Pins := { HV_TOGGLE_BUTTON_PIN := 4, EM_TOGGLE_BUTTON_PIN := 8 }

/-! ## Constants of the HAL and of FreeRTOS -/

/-- Status `HAL_OK` of `HAL_StatusTypeDef`. -/
def HAL_OK : Int := 0
/-- Status `HAL_ERROR` of `HAL_StatusTypeDef`. -/
def HAL_ERROR : Int := 1
/-- Value `pdPASS` of FreeRTOS. -/
def pdPASS : Int := 1
/-- Value `pdFAIL` of FreeRTOS. -/
def pdFAIL : Int := 0

inductive GPIO_PinState where
  | GPIO_PIN_RESET
  | GPIO_PIN_SET
  deriving DecidableEq, Repr

/-! ## World, environment, external calls -/

/-- A call that leaves the translation unit. -/
inductive Effect where
  | DEBUG_PRINT
  | ERROR_PRINT
  | DEBUG_PRINT_ISR
  /-- The call `sendCAN_DCU_buttonEvents()`, with the two flags as they are when it is made. -/
  | sendCAN_DCU_buttonEvents (ButtonHVEnabled ButtonEMEnabled : Nat)
  /-- The call `xTimerStart(buzzerSoundTimer, 100)`. -/
  | xTimerStart_buzzer
  /-- The call `xTimerStartFromISR(debounceTimer, ..)`. -/
  | xTimerStartFromISR_debounce
  | Error_Handler
  /-- The call `fsmSendEventISR(&DCUFsmHandle, event)`. -/
  | fsmSendEventISR (event : Nat)
  | BUZZER_ON
  | BUZZER_OFF
  /-- The call `HAL_GPIO_ReadPin(port, pin)`. -/
  | HAL_GPIO_ReadPin (pin : Nat)
  deriving DecidableEq, Repr

structure World where
  /-- The current state held by `DCUFsmHandle`. -/
  currentState : Nat
  ButtonHVEnabled : Nat
  ButtonEMEnabled : Nat
  buzzerTimerStarted : Bool
  /-- The buzzer output driven by `BUZZER_ON` / `BUZZER_OFF`. -/
  buzzerOutput : Bool
  alreadyDebouncing : Bool
  debouncingPin : Nat
  /-- The one-shot `debounceTimer` has been started and has not expired yet. -/
  debounceTimerPending : Bool
  /-- External calls made so far, oldest first. -/
  trace : List Effect
  deriving DecidableEq, Repr

/-- What the outside answers during one handler or callback. -/
structure Env where
  /-- Status returned by `sendCAN_DCU_buttonEvents()`. -/
  sendCAN_result : Int
  /-- Value returned by `xTimerStart`. -/
  xTimerStart_result : Int
  /-- Whether `getHVState() == HV_Power_State_On`. -/
  hvStateOn : Bool
  /-- Whether `getEMState() == EM_State_On`. -/
  emStateOn : Bool
  /-- Level returned by `HAL_GPIO_ReadPin` for the port and pin of a button. -/
  pinLevel : Nat → GPIO_PinState
  /-- Whether a call of `Error_Handler()` comes back to its caller.  `Error_Handler` is
  defined outside the tree. -/
  errorHandlerReturns : Bool

/-- A piece of C code run in an environment: the world it leaves and the value it yields,
`none` when control never came back to the caller. -/
def Run (α : Type) : Type := Env → World → World × Option α

def Run.pure {α : Type} (a : α) : Run α := fun _ w => (w, some a)

def Run.bind {α β : Type} (m : Run α) (f : α → Run β) : Run β := fun env w =>
  match m env w with
  | (w1, some a) => f a env w1
  | (w1, none) => (w1, none)

instance : Monad Run where
  pure := Run.pure
  bind := Run.bind

/-- Record an external call. -/
def call (e : Effect) : Run Unit := fun _ w => ({ w with trace := w.trace ++ [e] }, some ())

/-- Update the globals. -/
def modify (f : World → World) : Run Unit := fun _ w => (f w, some ())

/-- Read a global. -/
def read {α : Type} (f : World → α) : Run α := fun _ w => (w, some (f w))

/-- Read an answer of the outside. -/
def ask {α : Type} (f : Env → α) : Run α := fun env w => (w, some (f env))

/-- The call `Error_Handler()`: it is recorded; control continues only if it returns. -/
def Error_Handler : Run Unit := fun env w =>
  ({ w with trace := w.trace ++ [Effect.Error_Handler] },
    if env.errorHandlerReturns then some () else none)

/-- Modelled from the spec: `fsmGetState` belongs to `state_machine.c`, which is not part of
the tree; it reports the current state of the handle. -/
def fsmGetState : Run Nat := read World.currentState

/-! ## Handlers and callbacks of `controlStateMachine.c` -/

def sendHVToggleMsg : Run Int := do
  modify fun w => { w with ButtonHVEnabled := 1 }
  modify fun w => { w with ButtonEMEnabled := 0 }
  let hv ← read World.ButtonHVEnabled
  let em ← read World.ButtonEMEnabled
  call (Effect.sendCAN_DCU_buttonEvents hv em)
  ask Env.sendCAN_result

def sendEMToggleMsg : Run Int := do
  modify fun w => { w with ButtonHVEnabled := 0 }
  modify fun w => { w with ButtonEMEnabled := 1 }
  let hv ← read World.ButtonHVEnabled
  let em ← read World.ButtonEMEnabled
  call (Effect.sendCAN_DCU_buttonEvents hv em)
  ask Env.sendCAN_result

def toggleHV (t : DcuTags) (_event : Nat) : Run Nat := do
  call Effect.DEBUG_PRINT
  if (← sendHVToggleMsg) ≠ HAL_OK then
    call Effect.ERROR_PRINT
    Error_Handler
  return t.STATE_HV_Toggle

/-- The handler of the EM button; `BUZZER_ON` is a macro of `bsp.h` that drives the buzzer
output. -/
def toggleEM (t : DcuTags) (_event : Nat) : Run Nat := do
  if (← fsmGetState) = STATE_HV_Enable then
    call Effect.DEBUG_PRINT
    if !(← read World.buzzerTimerStarted) then
      call Effect.xTimerStart_buzzer
      if (← ask Env.xTimerStart_result) ≠ pdPASS then
        call Effect.ERROR_PRINT
        Error_Handler
      modify fun w => { w with buzzerTimerStarted := true }
      call Effect.BUZZER_ON
      modify fun w => { w with buzzerOutput := true }
  call Effect.DEBUG_PRINT
  if (← sendEMToggleMsg) ≠ HAL_OK then
    call Effect.ERROR_PRINT
    Error_Handler
  return t.STATE_EM_Toggle

def hvControl (_event : Nat) : Run Nat := do
  if (← ask Env.hvStateOn) then
    call Effect.DEBUG_PRINT
    return STATE_HV_Enable
  else
    call Effect.DEBUG_PRINT
    return STATE_HV_Disable

def emControl (t : DcuTags) (_event : Nat) : Run Nat := do
  if (← ask Env.emStateOn) then
    call Effect.DEBUG_PRINT
    return t.STATE_EM_Enable
  else
    call Effect.DEBUG_PRINT
    return STATE_HV_Enable

def defaultTransition (_event : Nat) : Run Nat := do
  let _ ← fsmGetState
  call Effect.ERROR_PRINT
  fsmGetState

/-- The callback of the one-shot `debounceTimer`; it runs when that timer expires, so the
timer is no longer pending when it starts. -/
def debounceTimerCallback (t : DcuTags) (p : Pins) : Run Unit := do
  modify fun w => { w with debounceTimerPending := false }
  let debouncingPin ← read World.debouncingPin
  let pin_val ←
    if debouncingPin = p.HV_TOGGLE_BUTTON_PIN then do
      call (Effect.HAL_GPIO_ReadPin p.HV_TOGGLE_BUTTON_PIN)
      ask fun env => env.pinLevel p.HV_TOGGLE_BUTTON_PIN
    else if debouncingPin = p.EM_TOGGLE_BUTTON_PIN then do
      call (Effect.HAL_GPIO_ReadPin p.EM_TOGGLE_BUTTON_PIN)
      ask fun env => env.pinLevel p.EM_TOGGLE_BUTTON_PIN
    else do
      call Effect.DEBUG_PRINT_ISR
      pure GPIO_PinState.GPIO_PIN_SET
  if pin_val = GPIO_PinState.GPIO_PIN_RESET then
    if debouncingPin = p.HV_TOGGLE_BUTTON_PIN then
      call (Effect.fsmSendEventISR EV_HV_Toggle)
    else if debouncingPin = p.EM_TOGGLE_BUTTON_PIN then
      call (Effect.fsmSendEventISR t.EV_EM_Toggle)
    else
      call Effect.DEBUG_PRINT_ISR
  modify fun w => { w with alreadyDebouncing := false }

/-- The edge interrupt.  The result of `xTimerStartFromISR` is not looked at by the code;
the call is taken to start the timer.  `portYIELD_FROM_ISR` only asks for a context switch
and is left out. -/
def HAL_GPIO_EXTI_Callback (p : Pins) (pin : Nat) : Run Unit := do
  if (← read World.alreadyDebouncing) then
    return
  modify fun w => { w with alreadyDebouncing := true }
  if pin = p.HV_TOGGLE_BUTTON_PIN then
    modify fun w => { w with debouncingPin := p.HV_TOGGLE_BUTTON_PIN }
  else if pin = p.EM_TOGGLE_BUTTON_PIN then
    modify fun w => { w with debouncingPin := p.EM_TOGGLE_BUTTON_PIN }
  else
    call Effect.DEBUG_PRINT_ISR
    return
  call Effect.xTimerStartFromISR_debounce
  modify fun w => { w with debounceTimerPending := true }

def buzzerTimerCallback : Run Unit := do
  modify fun w => { w with buzzerTimerStarted := false }
  call Effect.BUZZER_OFF
  modify fun w => { w with buzzerOutput := false }

/-! ## The transition table -/

/-- The functions whose addresses the table holds. -/
inductive Handler where
  | toggleHV
  | hvControl
  | toggleEM
  | emControl
  | defaultTransition
  deriving DecidableEq, Repr

/-- Call through the function pointer of a table entry. -/
def Handler.run (t : DcuTags) : Handler → Nat → Run Nat
  | Handler.toggleHV => DCU.toggleHV t
  | Handler.hvControl => DCU.hvControl
  | Handler.toggleEM => DCU.toggleEM t
  | Handler.emControl => DCU.emControl t
  | Handler.defaultTransition => DCU.defaultTransition

/-- Modelled from the spec: `Transition_t` is declared in `state_machine.h`, which is not
part of the tree; an entry is `{statePattern, eventPattern, handler}`. -/
structure Transition_t where
  statePattern : Nat
  eventPattern : Nat
  handler : Handler
  deriving DecidableEq, Repr

def transitions (t : DcuTags) : List Transition_t :=
  [ { statePattern := STATE_HV_Disable, eventPattern := EV_HV_Toggle, handler := Handler.toggleHV },
    { statePattern := t.STATE_HV_Toggle, eventPattern := t.EV_CAN_Recieve, handler := Handler.hvControl },
    { statePattern := STATE_HV_Enable, eventPattern := t.EV_EM_Toggle, handler := Handler.toggleEM },
    { statePattern := t.STATE_EM_Toggle, eventPattern := t.EV_CAN_Recieve, handler := Handler.emControl },
    { statePattern := t.STATE_EM_Enable, eventPattern := t.EV_EM_Toggle, handler := Handler.toggleEM },
    { statePattern := STATE_HV_Enable, eventPattern := EV_HV_Toggle, handler := Handler.toggleHV },
    { statePattern := STATE_ANY, eventPattern := EV_ANY, handler := Handler.defaultTransition } ]

/-- The six rows written before the fallback row. -/
def concreteRows (t : DcuTags) : List Transition_t := (transitions t).dropLast

/-! ## The engine, modelled from the specification -/

/-- Modelled from the spec: the matching rule of `lookupTransition` in `state_machine.c`,
which is not part of the tree: an entry matches if `(entry.statePattern == state OR
entry.statePattern == ANY_STATE) AND (entry.eventPattern == event OR entry.eventPattern ==
ANY_EVENT)`. -/
def entryMatches (ANY_STATE ANY_EVENT : Nat) (entry : Transition_t) (state event : Nat) : Bool :=
  (entry.statePattern == state || entry.statePattern == ANY_STATE) &&
    (entry.eventPattern == event || entry.eventPattern == ANY_EVENT)

/-- Modelled from the spec: `lookupTransition(table, state, event)` of `state_machine.c`,
which is not part of the tree: scan entries in order, return the first match; `none` stands
for "no match". -/
def lookupTransition (ANY_STATE ANY_EVENT : Nat) :
    List Transition_t → Nat → Nat → Option Transition_t
  | [], _, _ => none
  | entry :: rest, state, event =>
    if entryMatches ANY_STATE ANY_EVENT entry state event then some entry
    else lookupTransition ANY_STATE ANY_EVENT rest state event

/-- Modelled from the spec: the dispatch step of the loop in `state_machine.c`, which is not
part of the tree: resolve `lookupTransition`, invoke the handler synchronously to
completion, assign `currentState = handler(event)`.  The wildcards are the ones `dcuFsmInit`
hands to the engine (`init.ST_ANY = STATE_ANY`, `init.EV_ANY = EV_ANY`). -/
def dispatch (t : DcuTags) (event : Nat) : Run Unit := do
  let state ← fsmGetState
  match lookupTransition STATE_ANY EV_ANY (transitions t) state event with
  | none => pure ()
  | some entry =>
    let next ← entry.handler.run t event
    modify fun w => { w with currentState := next }

/-! ## Observations on a trace -/

/-- The external calls made by `m` when run from `w`. -/
def effectsOf {α : Type} (m : Run α) (env : Env) (w : World) : List Effect :=
  (m env w).1.trace.drop w.trace.length

/-- The flags of the button-event messages handed to the CAN send. -/
def canSends : List Effect → List (Nat × Nat)
  | [] => []
  | Effect.sendCAN_DCU_buttonEvents hv em :: rest => (hv, em) :: canSends rest
  | _ :: rest => canSends rest

/-- The events handed to `fsmSendEventISR`. -/
def eventsSent : List Effect → List Nat
  | [] => []
  | Effect.fsmSendEventISR event :: rest => event :: eventsSent rest
  | _ :: rest => eventsSent rest

/-! ## Sample inputs -/

/-- The globals as the C initialisers leave them, with the automaton in `state`. -/
def startWorld (state : Nat) : World :=
  { currentState := state, ButtonHVEnabled := 0, ButtonEMEnabled := 0,
    buzzerTimerStarted := false, buzzerOutput := false, alreadyDebouncing := false,
    debouncingPin := 0, debounceTimerPending := false, trace := [] }

/-- An outside where every call succeeds, HV is reported on, the motors are reported off
and both buttons read as pressed. -/
def calmEnv : Env :=
  { sendCAN_result := HAL_OK, xTimerStart_result := pdPASS, hvStateOn := true,
    emStateOn := false, pinLevel := fun _ => GPIO_PinState.GPIO_PIN_RESET,
    errorHandlerReturns := false }

/-- The outside of `calmEnv`, except that both buttons read as released. -/
def bounceEnv : Env := { calmEnv with pinLevel := fun _ => GPIO_PinState.GPIO_PIN_SET }

/-- The outside of `calmEnv`, except that the CAN send fails. -/
def failingSendEnv : Env := { calmEnv with sendCAN_result := HAL_ERROR }

/-- The outside of `calmEnv`, except that HV is reported off. -/
def hvOffEnv : Env := { calmEnv with hvStateOn := false }

/-- The outside of `calmEnv`, except that the start of the buzzer timer fails; as in
`calmEnv`, `Error_Handler` does not come back. -/
def timerFailEnv : Env := { calmEnv with xTimerStart_result := pdFAIL }

/-! ## Initialisation -/

def MAIN_TASK_ID : Nat := 1

/-- Modelled from the spec: `FSM_Init_Struct` is declared in `state_machine.h`, which is not
part of the tree; its fields are the nine that `dcuFsmInit` assigns. -/
structure FSM_Init_Struct where
  maxStateNum : Nat
  maxEventNum : Nat
  sizeofEventEnumType : Nat
  ST_ANY : Nat
  EV_ANY : Nat
  transitions : List Transition_t
  transitionTableLength : Nat
  eventQueueLength : Nat
  watchdogTaskId : Nat
  deriving DecidableEq, Repr

/-- Modelled from the spec: `TRANS_COUNT` is a macro of `state_machine.h`, which is not part
of the tree.  The engine is handed the table as an ordered sequence of entries that ends
with the fallback entry, so the macro is taken to count the entries of the array. -/
def TRANS_COUNT (table : List Transition_t) : Nat := table.length

/-- The local `init` of `dcuFsmInit` after its nine assignments.  The size of the event
enumeration, `sizeof(DCU_Events_t)`, is fixed by no file of the tree and is a parameter. -/
def dcuFsmInit_init (t : DcuTags) (sizeof_DCU_Events_t : Nat) : FSM_Init_Struct :=
  { maxStateNum := STATE_ANY,
    maxEventNum := EV_ANY,
    sizeofEventEnumType := sizeof_DCU_Events_t,
    ST_ANY := STATE_ANY,
    EV_ANY := EV_ANY,
    transitions := transitions t,
    transitionTableLength := TRANS_COUNT (transitions t),
    eventQueueLength := 5,
    watchdogTaskId := MAIN_TASK_ID }

/-- The initialisation of the automaton.  `fsmInit` belongs to `state_machine.c`, which is
not part of the tree; it is a parameter, called with the initial state and the filled
`init`. -/
def dcuFsmInit (t : DcuTags) (sizeof_DCU_Events_t : Nat)
    (fsmInit : Nat → FSM_Init_Struct → Run Int) : Run Int := do
  if (← fsmInit STATE_HV_Disable (dcuFsmInit_init t sizeof_DCU_Events_t)) ≠ HAL_OK then
    call Effect.ERROR_PRINT
    return HAL_ERROR
  call Effect.DEBUG_PRINT
  return HAL_OK

/-- Modelled from the spec: `fsmInit` belongs to `state_machine.c`, which is not part of the
tree.  The handle is "created once at startup with an initial state"; this stand-in stores
the initial state in the handle and answers the status it is given. -/
def sampleFsmInit (status : Int) (initialState : Nat) (_init : FSM_Init_Struct) : Run Int := do
  modify fun w => { w with currentState := initialState }
  return status

/-! ## Runs of the dispatch loop -/

/-- The answers of the outside that the handlers of the table read. -/
def Env.answers (env : Env) : Int × Int × Bool × Bool × Bool :=
  (env.sendCAN_result, env.xTimerStart_result, env.hvStateOn, env.emStateOn,
    env.errorHandlerReturns)

/-- Modelled from the spec: the dispatch loop of `state_machine.c`, which is not part of the
tree, fed with a sequence of events, each with the answers of the outside while it is
handled.  The result lists the state committed after each event; the loop stops when a
handler never comes back. -/
def visitedStates (t : DcuTags) : List (Nat × Env) → World → List Nat
  | [], _ => []
  | (event, env) :: rest, w =>
    match dispatch t event env w with
    | (w1, some _) => w1.currentState :: visitedStates t rest w1
    | (_, none) => []

/-! ## Running the embedded code -/

theorem run_bind {α β : Type} (m : Run α) (f : α → Run β) (env : Env) (w : World) :
    (m >>= f) env w =
      match m env w with
      | (w1, some a) => f a env w1
      | (w1, none) => (w1, none) := rfl

theorem run_pure {α : Type} (a : α) (env : Env) (w : World) :
    (pure a : Run α) env w = (w, some a) := rfl

theorem effectsOf_eq {α : Type} (m : Run α) (env : Env) (w : World) (l : List Effect)
    (h : (m env w).1.trace = w.trace ++ l) : effectsOf m env w = l := by
  simp [effectsOf, h]

theorem defaultTransition_eq (event : Nat) (env : Env) (w : World) :
    defaultTransition event env w =
      ({ w with trace := w.trace ++ [Effect.ERROR_PRINT] }, some w.currentState) := rfl

/-- The dispatch step once the row is known: run its handler, and commit the value it
returns if it returns. -/
theorem dispatch_of_lookup (t : DcuTags) (event : Nat) (env : Env) (w : World)
    (entry : Transition_t)
    (h : lookupTransition STATE_ANY EV_ANY (transitions t) w.currentState event = some entry) :
    dispatch t event env w =
      match entry.handler.run t event env w with
      | (w1, some next) => ({ w1 with currentState := next }, some ())
      | (w1, none) => (w1, none) := by
  simp only [dispatch, fsmGetState, read, run_bind, h]
  rcases entry.handler.run t event env w with ⟨w1, _ | next⟩ <;> rfl

/-- When none of the six rows written before it matches, the lookup ends on the fallback
row. -/
theorem lookup_fallback (t : DcuTags) (state event : Nat)
    (h : ∀ entry ∈ concreteRows t, entryMatches STATE_ANY EV_ANY entry state event = false) :
    lookupTransition STATE_ANY EV_ANY (transitions t) state event =
      some { statePattern := STATE_ANY, eventPattern := EV_ANY,
             handler := Handler.defaultTransition } := by
  simp only [concreteRows, transitions, List.dropLast, List.mem_cons, List.mem_singleton,
    forall_eq_or_imp, forall_eq, List.not_mem_nil, false_imp_iff, implies_true, and_true] at h
  obtain ⟨h1, h2, h3, h4, h5, h6⟩ := h
  simp only [lookupTransition, transitions, h1, h2, h3, h4, h5, h6]
  simp [entryMatches]

theorem lookup_row_toggleHV_disabled (t : DcuTags) :
    lookupTransition STATE_ANY EV_ANY (transitions t) STATE_HV_Disable EV_HV_Toggle =
      some { statePattern := STATE_HV_Disable, eventPattern := EV_HV_Toggle,
             handler := Handler.toggleHV } := by
  simp [lookupTransition, transitions, entryMatches]

theorem lookup_row_hvControl (t : DcuTags) (hd : t.Distinct) :
    lookupTransition STATE_ANY EV_ANY (transitions t) t.STATE_HV_Toggle t.EV_CAN_Recieve =
      some { statePattern := t.STATE_HV_Toggle, eventPattern := t.EV_CAN_Recieve,
             handler := Handler.hvControl } := by
  simp only [DcuTags.Distinct, List.nodup_cons, List.mem_cons, List.mem_singleton, not_or,
    List.not_mem_nil, not_false_eq_true, List.nodup_nil, and_true] at hd
  simp only [lookupTransition, transitions, entryMatches]
  split_ifs <;> simp_all

theorem lookup_row_toggleEM_enabled (t : DcuTags) (hd : t.Distinct) :
    lookupTransition STATE_ANY EV_ANY (transitions t) STATE_HV_Enable t.EV_EM_Toggle =
      some { statePattern := STATE_HV_Enable, eventPattern := t.EV_EM_Toggle,
             handler := Handler.toggleEM } := by
  simp only [DcuTags.Distinct, List.nodup_cons, List.mem_cons, List.mem_singleton, not_or,
    List.not_mem_nil, not_false_eq_true, List.nodup_nil, and_true] at hd
  simp only [lookupTransition, transitions, entryMatches]
  split_ifs <;> simp_all

theorem lookup_row_emControl (t : DcuTags) (hd : t.Distinct) :
    lookupTransition STATE_ANY EV_ANY (transitions t) t.STATE_EM_Toggle t.EV_CAN_Recieve =
      some { statePattern := t.STATE_EM_Toggle, eventPattern := t.EV_CAN_Recieve,
             handler := Handler.emControl } := by
  simp only [DcuTags.Distinct, List.nodup_cons, List.mem_cons, List.mem_singleton, not_or,
    List.not_mem_nil, not_false_eq_true, List.nodup_nil, and_true] at hd
  simp only [lookupTransition, transitions, entryMatches]
  split_ifs <;> simp_all

/-- No concrete row is written for `EV_HV_Fault`. -/
theorem no_row_for_fault (t : DcuTags) (state : Nat)
    (hfault : t.EV_CAN_Recieve ≠ EV_HV_Fault ∧ t.EV_EM_Toggle ≠ EV_HV_Fault)
    (hany : t.EV_CAN_Recieve ≠ EV_ANY ∧ t.EV_EM_Toggle ≠ EV_ANY) :
    ∀ entry ∈ concreteRows t,
      entryMatches STATE_ANY EV_ANY entry state EV_HV_Fault = false := by
  have h1 : ¬ EV_HV_Toggle = EV_HV_Fault := by decide
  have h2 : ¬ EV_HV_Toggle = EV_ANY := by decide
  simp [concreteRows, transitions, entryMatches, hfault, hany, h1, h2]

theorem toggleHV_ok (t : DcuTags) (event : Nat) (env : Env) (w : World)
    (hsend : env.sendCAN_result = HAL_OK) :
    toggleHV t event env w =
      ({ w with ButtonHVEnabled := 1, ButtonEMEnabled := 0,
                trace := w.trace ++
                  [Effect.DEBUG_PRINT, Effect.sendCAN_DCU_buttonEvents 1 0] },
        some t.STATE_HV_Toggle) := by
  simp [toggleHV, sendHVToggleMsg, run_bind, run_pure, call, modify, read, ask, hsend]

theorem toggleEM_ok_buzzer (t : DcuTags) (event : Nat) (env : Env) (w : World)
    (hs : w.currentState = STATE_HV_Enable) (hb : w.buzzerTimerStarted = false)
    (htimer : env.xTimerStart_result = pdPASS) (hsend : env.sendCAN_result = HAL_OK) :
    toggleEM t event env w =
      ({ w with ButtonHVEnabled := 0, ButtonEMEnabled := 1, buzzerTimerStarted := true,
                buzzerOutput := true,
                trace := w.trace ++
                  [Effect.DEBUG_PRINT, Effect.xTimerStart_buzzer, Effect.BUZZER_ON,
                    Effect.DEBUG_PRINT, Effect.sendCAN_DCU_buttonEvents 0 1] },
        some t.STATE_EM_Toggle) := by
  simp [toggleEM, sendEMToggleMsg, fsmGetState, run_bind, run_pure, call, modify, read, ask,
    hs, hb, htimer, hsend]

theorem hvControl_eq (event : Nat) (env : Env) (w : World) :
    hvControl event env w =
      ({ w with trace := w.trace ++ [Effect.DEBUG_PRINT] },
        some (if env.hvStateOn then STATE_HV_Enable else STATE_HV_Disable)) := by
  cases h : env.hvStateOn <;> simp [hvControl, run_bind, run_pure, call, ask, h]

theorem emControl_eq (t : DcuTags) (event : Nat) (env : Env) (w : World) :
    emControl t event env w =
      ({ w with trace := w.trace ++ [Effect.DEBUG_PRINT] },
        some (if env.emStateOn then t.STATE_EM_Enable else STATE_HV_Enable)) := by
  cases h : env.emStateOn <;> simp [emControl, run_bind, run_pure, call, ask, h]

/-! ## Transition dispatch -/

/-- C1: for every state value and every event value, declared or not, the in-order scan of
`transitions` with the wildcard matching rule finds a matching entry: the lookup is a total
function and its result is never "no match". -/
theorem lookupTransition_total (t : DcuTags) (state event : Nat) :
    ∃ entry, lookupTransition STATE_ANY EV_ANY (transitions t) state event = some entry ∧
      entry ∈ transitions t ∧ entryMatches STATE_ANY EV_ANY entry state event = true := by
  simp only [transitions, lookupTransition]
  split_ifs <;> simp_all [entryMatches]

/-- C2: `defaultTransition` returns exactly the current state and does nothing but print
the diagnostic (no CAN send, no timer start, no change of a global); hence dispatching a
pair that matches none of the six concrete rows leaves the current state, and every other
global, unchanged. -/
theorem defaultTransition_self_loop (t : DcuTags) (env : Env) (w : World) (event : Nat) :
    defaultTransition event env w =
        ({ w with trace := w.trace ++ [Effect.ERROR_PRINT] }, some w.currentState) ∧
      ((∀ entry ∈ concreteRows t,
          entryMatches STATE_ANY EV_ANY entry w.currentState event = false) →
        dispatch t event env w =
          ({ w with trace := w.trace ++ [Effect.ERROR_PRINT] }, some ())) := by
  refine ⟨rfl, fun h => ?_⟩
  rw [dispatch_of_lookup t event env w _ (lookup_fallback t w.currentState event h)]
  rfl

/-- Witness of C2: in `STATE_HV_Disable` the event `EV_Init` matches none of the six concrete
rows, and dispatching it only prints the diagnostic. -/
theorem defaultTransition_self_loop_witness :
    (∀ entry ∈ concreteRows sampleTags,
        entryMatches STATE_ANY EV_ANY entry (startWorld STATE_HV_Disable).currentState EV_Init
          = false) ∧
      dispatch sampleTags EV_Init calmEnv (startWorld STATE_HV_Disable) =
        ({ startWorld STATE_HV_Disable with trace := [Effect.ERROR_PRINT] }, some ()) :=
  ⟨by decide,
    (defaultTransition_self_loop sampleTags calmEnv (startWorld STATE_HV_Disable) EV_Init).2
      (by decide)⟩

/-- Counterexample to C3 as stated: in `STATE_HV_Disable` the event `EV_HV_Fault` resolves to
the fallback row, and the dispatch leaves the automaton in `STATE_HV_Disable`, not in
`STATE_Failure_Fatal`. -/
theorem fault_dispatch_counterexample :
    lookupTransition STATE_ANY EV_ANY (transitions sampleTags) STATE_HV_Disable EV_HV_Fault =
        some { statePattern := STATE_ANY, eventPattern := EV_ANY,
               handler := Handler.defaultTransition } ∧
      (dispatch sampleTags EV_HV_Fault calmEnv (startWorld STATE_HV_Disable)).1.currentState =
        STATE_HV_Disable ∧
      (dispatch sampleTags EV_HV_Fault calmEnv (startWorld STATE_HV_Disable)).1.currentState ≠
        STATE_Failure_Fatal := by
  decide

/-- C3, amended: from each of `STATE_HV_Disable`, `STATE_HV_Enable` and `STATE_Precharge`,
dispatching `EV_HV_Fault` leaves the current state as it was, so it does not become
`STATE_Failure_Fatal`: no row of the table has `EV_HV_Fault` as its event pattern, the event
matches none of the six concrete rows, and the lookup resolves to the fallback row
`(STATE_ANY, EV_ANY, defaultTransition)`.  The tags `EV_CAN_Recieve` and `EV_EM_Toggle` are
assumed different from `EV_HV_Fault` and from the wildcard. -/
theorem fault_dispatch_self_loop (t : DcuTags) (env : Env) (w : World)
    (hfault : t.EV_CAN_Recieve ≠ EV_HV_Fault ∧ t.EV_EM_Toggle ≠ EV_HV_Fault)
    (hany : t.EV_CAN_Recieve ≠ EV_ANY ∧ t.EV_EM_Toggle ≠ EV_ANY)
    (hs : w.currentState ∈ [STATE_HV_Disable, STATE_HV_Enable, STATE_Precharge]) :
    lookupTransition STATE_ANY EV_ANY (transitions t) w.currentState EV_HV_Fault =
        some { statePattern := STATE_ANY, eventPattern := EV_ANY,
               handler := Handler.defaultTransition } ∧
      (dispatch t EV_HV_Fault env w).1.currentState = w.currentState ∧
      (dispatch t EV_HV_Fault env w).1.currentState ≠ STATE_Failure_Fatal ∧
      (∀ entry ∈ transitions t, entry.eventPattern ≠ EV_HV_Fault) ∧
      (∀ entry ∈ concreteRows t,
        entryMatches STATE_ANY EV_ANY entry w.currentState EV_HV_Fault = false) := by
  have hrows := no_row_for_fault t w.currentState hfault hany
  have hl := lookup_fallback t w.currentState EV_HV_Fault hrows
  have hdis : (dispatch t EV_HV_Fault env w).1.currentState = w.currentState := by
    rw [dispatch_of_lookup t EV_HV_Fault env w _ hl]
    rfl
  have hpat : ∀ entry ∈ transitions t, entry.eventPattern ≠ EV_HV_Fault := by
    have h1 : ¬ EV_HV_Toggle = EV_HV_Fault := by decide
    have h2 : ¬ EV_ANY = EV_HV_Fault := by decide
    simp [transitions, hfault, h1, h2]
  refine ⟨hl, hdis, ?_, hpat, hrows⟩
  rw [hdis]
  simp only [List.mem_cons, List.mem_singleton, List.not_mem_nil, or_false] at hs
  rcases hs with h | h | h <;> rw [h] <;> decide

/-- Witness of the amended C3, from `STATE_Precharge`. -/
theorem fault_dispatch_self_loop_witness :
    (dispatch sampleTags EV_HV_Fault calmEnv (startWorld STATE_Precharge)).1.currentState =
      STATE_Precharge :=
  (fault_dispatch_self_loop sampleTags calmEnv (startWorld STATE_Precharge)
    (by decide) (by decide) (by decide)).2.1

/-- C4 (scenario A): in `STATE_HV_Disable`, `EV_HV_Toggle` resolves to `toggleHV`; with the
CAN send answering `HAL_OK` the dispatch sends one button-event message with
`ButtonHVEnabled = 1`, `ButtonEMEnabled = 0` and commits `STATE_HV_Toggle`.  There
`EV_CAN_Recieve` resolves to `hvControl`, and with HV reported on the dispatch commits
`STATE_HV_Enable`. -/
theorem scenario_A (t : DcuTags) (hd : t.Distinct) (env1 env2 : Env) (w : World)
    (hs : w.currentState = STATE_HV_Disable) (hsend : env1.sendCAN_result = HAL_OK)
    (hon : env2.hvStateOn = true) :
    lookupTransition STATE_ANY EV_ANY (transitions t) w.currentState EV_HV_Toggle =
        some { statePattern := STATE_HV_Disable, eventPattern := EV_HV_Toggle,
               handler := Handler.toggleHV } ∧
      dispatch t EV_HV_Toggle env1 w =
        ({ w with currentState := t.STATE_HV_Toggle, ButtonHVEnabled := 1,
                  ButtonEMEnabled := 0,
                  trace := w.trace ++
                    [Effect.DEBUG_PRINT, Effect.sendCAN_DCU_buttonEvents 1 0] },
          some ()) ∧
      lookupTransition STATE_ANY EV_ANY (transitions t) t.STATE_HV_Toggle t.EV_CAN_Recieve =
        some { statePattern := t.STATE_HV_Toggle, eventPattern := t.EV_CAN_Recieve,
               handler := Handler.hvControl } ∧
      dispatch t t.EV_CAN_Recieve env2 (dispatch t EV_HV_Toggle env1 w).1 =
        ({ w with currentState := STATE_HV_Enable, ButtonHVEnabled := 1,
                  ButtonEMEnabled := 0,
                  trace := w.trace ++
                    [Effect.DEBUG_PRINT, Effect.sendCAN_DCU_buttonEvents 1 0,
                      Effect.DEBUG_PRINT] },
          some ()) := by
  have h1 : lookupTransition STATE_ANY EV_ANY (transitions t) w.currentState EV_HV_Toggle =
      some { statePattern := STATE_HV_Disable, eventPattern := EV_HV_Toggle,
             handler := Handler.toggleHV } := by
    rw [hs]; exact lookup_row_toggleHV_disabled t
  have h2 : dispatch t EV_HV_Toggle env1 w =
      ({ w with currentState := t.STATE_HV_Toggle, ButtonHVEnabled := 1,
                ButtonEMEnabled := 0,
                trace := w.trace ++
                  [Effect.DEBUG_PRINT, Effect.sendCAN_DCU_buttonEvents 1 0] },
        some ()) := by
    rw [dispatch_of_lookup t EV_HV_Toggle env1 w _ h1]
    simp [Handler.run, toggleHV_ok t EV_HV_Toggle env1 w hsend]
  refine ⟨h1, h2, lookup_row_hvControl t hd, ?_⟩
  rw [h2, dispatch_of_lookup t t.EV_CAN_Recieve env2 _ _ (lookup_row_hvControl t hd)]
  simp [Handler.run, hvControl_eq, hon]

/-- Witness of C4: the scenario run with the sample tags from the start-up globals. -/
theorem scenario_A_witness :
    sampleTags.Distinct ∧
      (dispatch sampleTags sampleTags.EV_CAN_Recieve calmEnv
        (dispatch sampleTags EV_HV_Toggle calmEnv (startWorld STATE_HV_Disable)).1).1.currentState
        = STATE_HV_Enable :=
  ⟨by decide, by
    rw [(scenario_A sampleTags (by decide) calmEnv calmEnv (startWorld STATE_HV_Disable)
      rfl rfl rfl).2.2.2]⟩

/-- C5 (scenario B): in `STATE_HV_Enable` with `buzzerTimerStarted = false`, `EV_EM_Toggle`
resolves to `toggleEM`; with `xTimerStart` answering `pdPASS` and the CAN send answering
`HAL_OK` the dispatch starts the buzzer timer, sets `buzzerTimerStarted`, turns the buzzer
on, sends one message with `ButtonHVEnabled = 0`, `ButtonEMEnabled = 1` and commits
`STATE_EM_Toggle`.  There `EV_CAN_Recieve` resolves to `emControl`, and with the motors not
reported on the dispatch commits `STATE_HV_Enable`. -/
theorem scenario_B (t : DcuTags) (hd : t.Distinct) (env1 env2 : Env) (w : World)
    (hs : w.currentState = STATE_HV_Enable) (hb : w.buzzerTimerStarted = false)
    (htimer : env1.xTimerStart_result = pdPASS) (hsend : env1.sendCAN_result = HAL_OK)
    (hoff : env2.emStateOn = false) :
    lookupTransition STATE_ANY EV_ANY (transitions t) w.currentState t.EV_EM_Toggle =
        some { statePattern := STATE_HV_Enable, eventPattern := t.EV_EM_Toggle,
               handler := Handler.toggleEM } ∧
      dispatch t t.EV_EM_Toggle env1 w =
        ({ w with currentState := t.STATE_EM_Toggle, ButtonHVEnabled := 0,
                  ButtonEMEnabled := 1, buzzerTimerStarted := true, buzzerOutput := true,
                  trace := w.trace ++
                    [Effect.DEBUG_PRINT, Effect.xTimerStart_buzzer, Effect.BUZZER_ON,
                      Effect.DEBUG_PRINT, Effect.sendCAN_DCU_buttonEvents 0 1] },
          some ()) ∧
      lookupTransition STATE_ANY EV_ANY (transitions t) t.STATE_EM_Toggle t.EV_CAN_Recieve =
        some { statePattern := t.STATE_EM_Toggle, eventPattern := t.EV_CAN_Recieve,
               handler := Handler.emControl } ∧
      dispatch t t.EV_CAN_Recieve env2 (dispatch t t.EV_EM_Toggle env1 w).1 =
        ({ w with currentState := STATE_HV_Enable, ButtonHVEnabled := 0,
                  ButtonEMEnabled := 1, buzzerTimerStarted := true, buzzerOutput := true,
                  trace := w.trace ++
                    [Effect.DEBUG_PRINT, Effect.xTimerStart_buzzer, Effect.BUZZER_ON,
                      Effect.DEBUG_PRINT, Effect.sendCAN_DCU_buttonEvents 0 1,
                      Effect.DEBUG_PRINT] },
          some ()) := by
  have h1 : lookupTransition STATE_ANY EV_ANY (transitions t) w.currentState t.EV_EM_Toggle =
      some { statePattern := STATE_HV_Enable, eventPattern := t.EV_EM_Toggle,
             handler := Handler.toggleEM } := by
    rw [hs]; exact lookup_row_toggleEM_enabled t hd
  have h2 : dispatch t t.EV_EM_Toggle env1 w =
      ({ w with currentState := t.STATE_EM_Toggle, ButtonHVEnabled := 0,
                ButtonEMEnabled := 1, buzzerTimerStarted := true, buzzerOutput := true,
                trace := w.trace ++
                  [Effect.DEBUG_PRINT, Effect.xTimerStart_buzzer, Effect.BUZZER_ON,
                    Effect.DEBUG_PRINT, Effect.sendCAN_DCU_buttonEvents 0 1] },
        some ()) := by
    rw [dispatch_of_lookup t t.EV_EM_Toggle env1 w _ h1]
    simp [Handler.run, toggleEM_ok_buzzer t t.EV_EM_Toggle env1 w hs hb htimer hsend]
  refine ⟨h1, h2, lookup_row_emControl t hd, ?_⟩
  rw [h2, dispatch_of_lookup t t.EV_CAN_Recieve env2 _ _ (lookup_row_emControl t hd)]
  simp [Handler.run, emControl_eq, hoff]

/-- Witness of C5: the scenario run with the sample tags from the start-up globals. -/
theorem scenario_B_witness :
    sampleTags.Distinct ∧
      (dispatch sampleTags sampleTags.EV_CAN_Recieve calmEnv
        (dispatch sampleTags sampleTags.EV_EM_Toggle calmEnv
          (startWorld STATE_HV_Enable)).1).1.currentState = STATE_HV_Enable :=
  ⟨by decide, by
    rw [(scenario_B sampleTags (by decide) calmEnv calmEnv (startWorld STATE_HV_Enable)
      rfl rfl rfl rfl rfl).2.2.2]⟩

/-! ## Debounce filter -/

theorem exti_known_hv (p : Pins) (env : Env) (w : World) (hidle : w.alreadyDebouncing = false) :
    HAL_GPIO_EXTI_Callback p p.HV_TOGGLE_BUTTON_PIN env w =
      ({ w with alreadyDebouncing := true, debouncingPin := p.HV_TOGGLE_BUTTON_PIN,
                debounceTimerPending := true,
                trace := w.trace ++ [Effect.xTimerStartFromISR_debounce] }, some ()) := by
  simp [HAL_GPIO_EXTI_Callback, run_bind, run_pure, call, modify, read, hidle]

theorem exti_known_em (p : Pins) (env : Env) (w : World) (hidle : w.alreadyDebouncing = false)
    (hp : p.HV_TOGGLE_BUTTON_PIN ≠ p.EM_TOGGLE_BUTTON_PIN) :
    HAL_GPIO_EXTI_Callback p p.EM_TOGGLE_BUTTON_PIN env w =
      ({ w with alreadyDebouncing := true, debouncingPin := p.EM_TOGGLE_BUTTON_PIN,
                debounceTimerPending := true,
                trace := w.trace ++ [Effect.xTimerStartFromISR_debounce] }, some ()) := by
  simp [HAL_GPIO_EXTI_Callback, run_bind, run_pure, call, modify, read, hidle, Ne.symm hp]

theorem exti_unknown (p : Pins) (pin : Nat) (env : Env) (w : World)
    (hidle : w.alreadyDebouncing = false)
    (h1 : pin ≠ p.HV_TOGGLE_BUTTON_PIN) (h2 : pin ≠ p.EM_TOGGLE_BUTTON_PIN) :
    HAL_GPIO_EXTI_Callback p pin env w =
      ({ w with alreadyDebouncing := true,
                trace := w.trace ++ [Effect.DEBUG_PRINT_ISR] }, some ()) := by
  simp [HAL_GPIO_EXTI_Callback, run_bind, run_pure, call, modify, read, hidle, h1, h2]

theorem exti_dropped (p : Pins) (pin : Nat) (env : Env) (w : World)
    (h : w.alreadyDebouncing = true) :
    HAL_GPIO_EXTI_Callback p pin env w = (w, some ()) := by
  simp [HAL_GPIO_EXTI_Callback, run_bind, run_pure, call, modify, read, h]

theorem callback_hv (t : DcuTags) (p : Pins) (env : Env) (w : World)
    (h : w.debouncingPin = p.HV_TOGGLE_BUTTON_PIN) :
    debounceTimerCallback t p env w =
      ({ w with alreadyDebouncing := false, debounceTimerPending := false,
                trace := w.trace ++ Effect.HAL_GPIO_ReadPin p.HV_TOGGLE_BUTTON_PIN ::
                  (if env.pinLevel p.HV_TOGGLE_BUTTON_PIN = GPIO_PinState.GPIO_PIN_RESET
                   then [Effect.fsmSendEventISR EV_HV_Toggle] else []) }, some ()) := by
  by_cases hl : env.pinLevel p.HV_TOGGLE_BUTTON_PIN = GPIO_PinState.GPIO_PIN_RESET <;>
    simp [debounceTimerCallback, run_bind, run_pure, call, modify, read, ask, h, hl]

theorem callback_em (t : DcuTags) (p : Pins) (env : Env) (w : World)
    (hp : p.HV_TOGGLE_BUTTON_PIN ≠ p.EM_TOGGLE_BUTTON_PIN)
    (h : w.debouncingPin = p.EM_TOGGLE_BUTTON_PIN) :
    debounceTimerCallback t p env w =
      ({ w with alreadyDebouncing := false, debounceTimerPending := false,
                trace := w.trace ++ Effect.HAL_GPIO_ReadPin p.EM_TOGGLE_BUTTON_PIN ::
                  (if env.pinLevel p.EM_TOGGLE_BUTTON_PIN = GPIO_PinState.GPIO_PIN_RESET
                   then [Effect.fsmSendEventISR t.EV_EM_Toggle] else []) }, some ()) := by
  by_cases hl : env.pinLevel p.EM_TOGGLE_BUTTON_PIN = GPIO_PinState.GPIO_PIN_RESET <;>
    simp [debounceTimerCallback, run_bind, run_pure, call, modify, read, ask, h, hl, Ne.symm hp]

theorem callback_unknown (t : DcuTags) (p : Pins) (env : Env) (w : World)
    (h1 : w.debouncingPin ≠ p.HV_TOGGLE_BUTTON_PIN)
    (h2 : w.debouncingPin ≠ p.EM_TOGGLE_BUTTON_PIN) :
    debounceTimerCallback t p env w =
      ({ w with alreadyDebouncing := false, debounceTimerPending := false,
                trace := w.trace ++ [Effect.DEBUG_PRINT_ISR] }, some ()) := by
  simp [debounceTimerCallback, run_bind, run_pure, call, modify, read, ask, h1, h2]


/-- C6 (debounce confirmation): an edge interrupt on a monitored pin taken with the guard
inactive, followed by the expiry of the settle timer with that pin read as
`GPIO_PIN_RESET`, sends exactly one event with `fsmSendEventISR`: `EV_HV_Toggle` for the HV
button, `EV_EM_Toggle` for the EM button.  The two pins are distinct `case` labels. -/
theorem debounce_confirmation (t : DcuTags) (p : Pins)
    (hp : p.HV_TOGGLE_BUTTON_PIN ≠ p.EM_TOGGLE_BUTTON_PIN) (env1 env2 : Env) (w : World)
    (hidle : w.alreadyDebouncing = false) :
    (env2.pinLevel p.HV_TOGGLE_BUTTON_PIN = GPIO_PinState.GPIO_PIN_RESET →
        eventsSent ((debounceTimerCallback t p env2
          (HAL_GPIO_EXTI_Callback p p.HV_TOGGLE_BUTTON_PIN env1 w).1).1.trace.drop
            w.trace.length) = [EV_HV_Toggle]) ∧
      (env2.pinLevel p.EM_TOGGLE_BUTTON_PIN = GPIO_PinState.GPIO_PIN_RESET →
        eventsSent ((debounceTimerCallback t p env2
          (HAL_GPIO_EXTI_Callback p p.EM_TOGGLE_BUTTON_PIN env1 w).1).1.trace.drop
            w.trace.length) = [t.EV_EM_Toggle]) := by
  constructor
  · intro hl
    rw [exti_known_hv p env1 w hidle, callback_hv t p env2 _ rfl]
    simp [hl, eventsSent]
  · intro hl
    rw [exti_known_em p env1 w hidle hp, callback_em t p env2 _ hp rfl]
    simp [hl, eventsSent]

/-- Witness of C6: both buttons of the sample pins, pressed and held. -/
theorem debounce_confirmation_witness :
    samplePins.HV_TOGGLE_BUTTON_PIN ≠ samplePins.EM_TOGGLE_BUTTON_PIN ∧
      eventsSent ((debounceTimerCallback sampleTags samplePins calmEnv
        (HAL_GPIO_EXTI_Callback samplePins samplePins.EM_TOGGLE_BUTTON_PIN calmEnv
          (startWorld STATE_HV_Enable)).1).1.trace.drop
            (startWorld STATE_HV_Enable).trace.length) = [sampleTags.EV_EM_Toggle] :=
  ⟨by decide,
    (debounce_confirmation sampleTags samplePins (by decide) calmEnv calmEnv
      (startWorld STATE_HV_Enable) rfl).2 rfl⟩

/-- C7 (debounce suppression): whatever `debouncingPin` holds, if the level sampled by
`debounceTimerCallback` is not `GPIO_PIN_RESET` (for a pin that is not monitored nothing is
sampled and the level is taken as `GPIO_PIN_SET`), no event is sent to the FSM; and in every
case the callback returns with `alreadyDebouncing = false`. -/
theorem debounce_suppression (t : DcuTags) (p : Pins) (env : Env) (w : World) :
    ((w.debouncingPin = p.HV_TOGGLE_BUTTON_PIN ∨ w.debouncingPin = p.EM_TOGGLE_BUTTON_PIN →
        env.pinLevel w.debouncingPin ≠ GPIO_PinState.GPIO_PIN_RESET) →
      eventsSent (effectsOf (debounceTimerCallback t p) env w) = []) ∧
      (debounceTimerCallback t p env w).1.alreadyDebouncing = false ∧
      (debounceTimerCallback t p env w).2 = some () := by
  by_cases h1 : w.debouncingPin = p.HV_TOGGLE_BUTTON_PIN
  · rw [effectsOf, callback_hv t p env w h1]
    refine ⟨fun h => ?_, rfl, rfl⟩
    have hl := h (Or.inl h1)
    rw [h1] at hl
    simp [hl, eventsSent]
  · by_cases h2 : w.debouncingPin = p.EM_TOGGLE_BUTTON_PIN
    · have hp : p.HV_TOGGLE_BUTTON_PIN ≠ p.EM_TOGGLE_BUTTON_PIN := fun e => h1 (h2.trans e.symm)
      rw [effectsOf, callback_em t p env w hp h2]
      refine ⟨fun h => ?_, rfl, rfl⟩
      have hl := h (Or.inr h2)
      rw [h2] at hl
      simp [hl, eventsSent]
    · rw [effectsOf, callback_unknown t p env w h1 h2]
      exact ⟨fun _ => by simp [eventsSent], rfl, rfl⟩

/-- Witness of C7: the HV button is being debounced and reads as released at expiry. -/
theorem debounce_suppression_witness :
    ((HAL_GPIO_EXTI_Callback samplePins samplePins.HV_TOGGLE_BUTTON_PIN calmEnv
          (startWorld STATE_HV_Disable)).1.debouncingPin = samplePins.HV_TOGGLE_BUTTON_PIN ∧
        bounceEnv.pinLevel samplePins.HV_TOGGLE_BUTTON_PIN ≠ GPIO_PinState.GPIO_PIN_RESET) ∧
      eventsSent (effectsOf (debounceTimerCallback sampleTags samplePins) bounceEnv
        (HAL_GPIO_EXTI_Callback samplePins samplePins.HV_TOGGLE_BUTTON_PIN calmEnv
          (startWorld STATE_HV_Disable)).1) = [] :=
  ⟨by decide,
    (debounce_suppression sampleTags samplePins bounceEnv
      (HAL_GPIO_EXTI_Callback samplePins samplePins.HV_TOGGLE_BUTTON_PIN calmEnv
        (startWorld STATE_HV_Disable)).1).1 (by decide)⟩

/-- C8 (guard drop): whatever the pin, an edge interrupt taken while `alreadyDebouncing` is
true changes nothing: the guard and `debouncingPin` keep their values, the settle timer is
not started again and nothing is sent; so the expiry that follows samples the same line and
does the same as if the second edge had not occurred. -/
theorem guard_drop (t : DcuTags) (p : Pins) (pin : Nat) (env env2 : Env) (w : World)
    (h : w.alreadyDebouncing = true) :
    HAL_GPIO_EXTI_Callback p pin env w = (w, some ()) ∧
      debounceTimerCallback t p env2 (HAL_GPIO_EXTI_Callback p pin env w).1 =
        debounceTimerCallback t p env2 w := by
  have hdrop := exti_dropped p pin env w h
  exact ⟨hdrop, by rw [hdrop]⟩

/-- Witness of C8: an edge on the EM button while the HV button is being debounced. -/
theorem guard_drop_witness :
    (HAL_GPIO_EXTI_Callback samplePins samplePins.HV_TOGGLE_BUTTON_PIN calmEnv
        (startWorld STATE_HV_Disable)).1.alreadyDebouncing = true ∧
      (HAL_GPIO_EXTI_Callback samplePins samplePins.EM_TOGGLE_BUTTON_PIN calmEnv
        (HAL_GPIO_EXTI_Callback samplePins samplePins.HV_TOGGLE_BUTTON_PIN calmEnv
          (startWorld STATE_HV_Disable)).1).1.debouncingPin =
        samplePins.HV_TOGGLE_BUTTON_PIN :=
  ⟨by decide, by
    rw [(guard_drop sampleTags samplePins samplePins.EM_TOGGLE_BUTTON_PIN calmEnv calmEnv
      (HAL_GPIO_EXTI_Callback samplePins samplePins.HV_TOGGLE_BUTTON_PIN calmEnv
        (startWorld STATE_HV_Disable)).1 (by decide)).1]
    decide⟩

/-- Once the guard is set and nothing is left to clear it, every further edge interrupt is
dropped, whatever the pins. -/
theorem edges_dropped_while_guarded (p : Pins) (env : Env) (pins : List Nat) (w : World)
    (h : w.alreadyDebouncing = true) :
    pins.foldl (fun v pin => (HAL_GPIO_EXTI_Callback p pin env v).1) w = w := by
  induction pins with
  | nil => rfl
  | cons pin rest ih => rw [List.foldl_cons, exti_dropped p pin env w h]; exact ih

/-- C9, evaluated where it fails: from the start-up globals (guard inactive, no timer
pending) an edge interrupt on pin 5, which is neither button of the sample pins, returns
with `alreadyDebouncing = true` although the settle timer was not started; the next edge on
the HV button is then dropped. -/
theorem unmonitored_pin_sets_guard_without_timer :
    HAL_GPIO_EXTI_Callback samplePins 5 calmEnv (startWorld STATE_HV_Disable) =
        ({ startWorld STATE_HV_Disable with
            alreadyDebouncing := true, trace := [Effect.DEBUG_PRINT_ISR] }, some ()) ∧
      (HAL_GPIO_EXTI_Callback samplePins 5 calmEnv
        (startWorld STATE_HV_Disable)).1.debounceTimerPending = false ∧
      HAL_GPIO_EXTI_Callback samplePins samplePins.HV_TOGGLE_BUTTON_PIN calmEnv
          (HAL_GPIO_EXTI_Callback samplePins 5 calmEnv (startWorld STATE_HV_Disable)).1 =
        ((HAL_GPIO_EXTI_Callback samplePins 5 calmEnv (startWorld STATE_HV_Disable)).1,
          some ()) := by
  decide

/-! ## External send failure -/

/-- The calls made by `toggleHV`. -/
theorem toggleHV_effects (t : DcuTags) (event : Nat) (env : Env) (w : World) :
    effectsOf (toggleHV t event) env w =
      [Effect.DEBUG_PRINT, Effect.sendCAN_DCU_buttonEvents 1 0] ++
        (if env.sendCAN_result = HAL_OK then []
         else [Effect.ERROR_PRINT, Effect.Error_Handler]) := by
  apply effectsOf_eq
  by_cases h : env.sendCAN_result = HAL_OK <;> cases hr : env.errorHandlerReturns <;>
    simp [toggleHV, sendHVToggleMsg, run_bind, run_pure, call, modify, read, ask,
      Error_Handler, h, hr]

/-- The calls made by `toggleEM` when `xTimerStart` does not fail. -/
theorem toggleEM_effects (t : DcuTags) (event : Nat) (env : Env) (w : World)
    (htimer : env.xTimerStart_result = pdPASS) :
    effectsOf (toggleEM t event) env w =
      (if w.currentState = STATE_HV_Enable then
          Effect.DEBUG_PRINT ::
            (if w.buzzerTimerStarted then []
             else [Effect.xTimerStart_buzzer, Effect.BUZZER_ON])
        else []) ++
      [Effect.DEBUG_PRINT, Effect.sendCAN_DCU_buttonEvents 0 1] ++
        (if env.sendCAN_result = HAL_OK then []
         else [Effect.ERROR_PRINT, Effect.Error_Handler]) := by
  apply effectsOf_eq
  by_cases hs : w.currentState = STATE_HV_Enable <;> cases hb : w.buzzerTimerStarted <;>
    by_cases h : env.sendCAN_result = HAL_OK <;> cases hr : env.errorHandlerReturns <;>
    simp [toggleEM, sendEMToggleMsg, fsmGetState, run_bind, run_pure, call, modify, read, ask,
      Error_Handler, hs, hb, h, hr, htimer]

/-- The calls made by `toggleEM` when it does not reach `xTimerStart`. -/
theorem toggleEM_effects_no_timer (t : DcuTags) (event : Nat) (env : Env) (w : World)
    (hna : ¬ (w.currentState = STATE_HV_Enable ∧ w.buzzerTimerStarted = false)) :
    effectsOf (toggleEM t event) env w =
      (if w.currentState = STATE_HV_Enable then [Effect.DEBUG_PRINT] else []) ++
      [Effect.DEBUG_PRINT, Effect.sendCAN_DCU_buttonEvents 0 1] ++
        (if env.sendCAN_result = HAL_OK then []
         else [Effect.ERROR_PRINT, Effect.Error_Handler]) := by
  apply effectsOf_eq
  by_cases hs : w.currentState = STATE_HV_Enable <;> cases hb : w.buzzerTimerStarted <;>
    by_cases h : env.sendCAN_result = HAL_OK <;> cases hr : env.errorHandlerReturns <;>
    simp [toggleEM, sendEMToggleMsg, fsmGetState, run_bind, run_pure, call, modify, read, ask,
      Error_Handler, hs, hb, h, hr] at hna ⊢

/-- Whatever happens, `toggleEM` hands at most one message to the CAN send. -/
theorem toggleEM_sends_le_one (t : DcuTags) (event : Nat) (env : Env) (w : World) :
    (canSends (effectsOf (toggleEM t event) env w)).length ≤ 1 := by
  by_cases hs : w.currentState = STATE_HV_Enable <;> cases hb : w.buzzerTimerStarted <;>
    by_cases htimer : env.xTimerStart_result = pdPASS <;>
    by_cases h : env.sendCAN_result = HAL_OK <;> cases hr : env.errorHandlerReturns <;>
    simp [effectsOf, toggleEM, sendEMToggleMsg, fsmGetState, run_bind, run_pure, call,
      modify, read, ask, Error_Handler, hs, hb, h, hr, htimer, canSends]

/-- The calls made by `toggleEM` when the timer start is attempted and fails. -/
theorem toggleEM_effects_timer_failed (t : DcuTags) (event : Nat) (env : Env) (w : World)
    (hs : w.currentState = STATE_HV_Enable) (hb : w.buzzerTimerStarted = false)
    (htimer : env.xTimerStart_result ≠ pdPASS) :
    effectsOf (toggleEM t event) env w =
      [Effect.DEBUG_PRINT, Effect.xTimerStart_buzzer, Effect.ERROR_PRINT,
        Effect.Error_Handler] ++
      (if env.errorHandlerReturns then
          [Effect.BUZZER_ON, Effect.DEBUG_PRINT, Effect.sendCAN_DCU_buttonEvents 0 1] ++
            (if env.sendCAN_result = HAL_OK then []
             else [Effect.ERROR_PRINT, Effect.Error_Handler])
        else []) := by
  apply effectsOf_eq
  by_cases h : env.sendCAN_result = HAL_OK <;> cases hr : env.errorHandlerReturns <;>
    simp [toggleEM, sendEMToggleMsg, fsmGetState, run_bind, run_pure, call, modify, read, ask,
      Error_Handler, hs, hb, h, hr, htimer]

/-- Counterexample to C10 as stated: in `STATE_HV_Enable` with the buzzer not started, a
timer start that fails and an `Error_Handler` that does not come back, `toggleEM` stops
before the CAN send: the send is attempted zero times, not once. -/
theorem single_send_counterexample :
    effectsOf (toggleEM sampleTags sampleTags.EV_EM_Toggle) timerFailEnv
        (startWorld STATE_HV_Enable) =
        [Effect.DEBUG_PRINT, Effect.xTimerStart_buzzer, Effect.ERROR_PRINT,
          Effect.Error_Handler] ∧
      canSends (effectsOf (toggleEM sampleTags sampleTags.EV_EM_Toggle) timerFailEnv
        (startWorld STATE_HV_Enable)) = [] ∧
      (canSends (effectsOf (toggleEM sampleTags sampleTags.EV_EM_Toggle) timerFailEnv
        (startWorld STATE_HV_Enable))).length ≠ 1 := by
  decide

/-- C10, amended: in `toggleHV`, whatever the event and the current state, the CAN send is
attempted exactly once per invocation and `Error_Handler` is invoked if and only if that
send answers something other than `HAL_OK`.  In `toggleEM` both hold whenever the timer
start does not fail, that is `xTimerStart` answers `pdPASS` or is not called.  In every
case `toggleEM` sends at most once; when the timer start is attempted and fails,
`Error_Handler` is invoked before the send, which is then attempted once if `Error_Handler`
returns and not at all if it does not. -/
theorem send_failure_escalates (t : DcuTags) (event : Nat) (env : Env) (w : World) :
    ((canSends (effectsOf (toggleHV t event) env w)).length = 1 ∧
        (Effect.Error_Handler ∈ effectsOf (toggleHV t event) env w ↔
          env.sendCAN_result ≠ HAL_OK)) ∧
      ((env.xTimerStart_result = pdPASS ∨
          ¬ (w.currentState = STATE_HV_Enable ∧ w.buzzerTimerStarted = false)) →
        (canSends (effectsOf (toggleEM t event) env w)).length = 1 ∧
          (Effect.Error_Handler ∈ effectsOf (toggleEM t event) env w ↔
            env.sendCAN_result ≠ HAL_OK)) ∧
      (canSends (effectsOf (toggleEM t event) env w)).length ≤ 1 ∧
      (w.currentState = STATE_HV_Enable → w.buzzerTimerStarted = false →
        env.xTimerStart_result ≠ pdPASS →
          Effect.Error_Handler ∈ effectsOf (toggleEM t event) env w ∧
            (canSends (effectsOf (toggleEM t event) env w)).length =
              if env.errorHandlerReturns then 1 else 0) := by
  refine ⟨?_, ?_, ?_, ?_⟩
  · rw [toggleHV_effects]
    by_cases h : env.sendCAN_result = HAL_OK <;> simp [h, canSends]
  · intro hok
    rcases hok with htimer | hna
    · rw [toggleEM_effects t event env w htimer]
      by_cases hs : w.currentState = STATE_HV_Enable <;> cases hb : w.buzzerTimerStarted <;>
        by_cases h : env.sendCAN_result = HAL_OK <;> simp [hs, hb, h, canSends]
    · rw [toggleEM_effects_no_timer t event env w hna]
      by_cases hs : w.currentState = STATE_HV_Enable <;>
        by_cases h : env.sendCAN_result = HAL_OK <;> simp [hs, h, canSends]
  · exact toggleEM_sends_le_one t event env w
  · intro hs hb htimer
    rw [toggleEM_effects_timer_failed t event env w hs hb htimer]
    by_cases h : env.sendCAN_result = HAL_OK <;> cases hr : env.errorHandlerReturns <;>
      simp [h, hr, canSends]

/-- Witness of the amended C10: `toggleEM` in `STATE_HV_Enable` with a CAN send that fails. -/
theorem send_failure_escalates_witness :
    failingSendEnv.xTimerStart_result = pdPASS ∧
      (canSends (effectsOf (toggleEM sampleTags sampleTags.EV_EM_Toggle) failingSendEnv
        (startWorld STATE_HV_Enable))).length = 1 ∧
      Effect.Error_Handler ∈ effectsOf (toggleEM sampleTags sampleTags.EV_EM_Toggle)
        failingSendEnv (startWorld STATE_HV_Enable) :=
  ⟨rfl,
    ((send_failure_escalates sampleTags sampleTags.EV_EM_Toggle failingSendEnv
      (startWorld STATE_HV_Enable)).2.1 (Or.inl rfl)).1,
    ((send_failure_escalates sampleTags sampleTags.EV_EM_Toggle failingSendEnv
      (startWorld STATE_HV_Enable)).2.1 (Or.inl rfl)).2.2 (by decide)⟩

/-! ## Runs, reachable states and frame properties -/

theorem lookup_some_matches (ANY_STATE ANY_EVENT : Nat) (table : List Transition_t)
    (state event : Nat) (entry : Transition_t)
    (h : lookupTransition ANY_STATE ANY_EVENT table state event = some entry) :
    entry ∈ table ∧ entryMatches ANY_STATE ANY_EVENT entry state event = true := by
  induction table with
  | nil => simp [lookupTransition] at h
  | cons head rest ih =>
    simp only [lookupTransition] at h
    split_ifs at h with hm
    · cases h
      exact ⟨List.mem_cons_self _ _, hm⟩
    · exact ⟨List.mem_cons_of_mem _ (ih h).1, (ih h).2⟩

theorem dispatch_of_no_lookup (t : DcuTags) (event : Nat) (env : Env) (w : World)
    (h : lookupTransition STATE_ANY EV_ANY (transitions t) w.currentState event = none) :
    dispatch t event env w = (w, some ()) := by
  simp only [dispatch, fsmGetState, read, run_bind, h]
  rfl

/-- What a handler of the table leaves behind and returns, as far as the automaton is
concerned: the state it returns (if it returns) and the flag `buzzerTimerStarted`. -/
theorem handler_summary (t : DcuTags) (h : Handler) (event : Nat) (env : Env) (w : World) :
    (h.run t event env w).1.currentState = w.currentState ∧
      ((h.run t event env w).2 = none ∨
        ∃ s, (h.run t event env w).2 = some s ∧
          (s = w.currentState ∨
            s ∈ [STATE_HV_Disable, t.STATE_HV_Toggle, STATE_HV_Enable, t.STATE_EM_Toggle,
              t.STATE_EM_Enable])) := by
  cases h
  · by_cases h : env.sendCAN_result = HAL_OK <;> cases hr : env.errorHandlerReturns <;>
      simp [Handler.run, toggleHV, sendHVToggleMsg, run_bind, run_pure, call, modify, read, ask,
        Error_Handler, h, hr]
  · cases h : env.hvStateOn <;> simp [Handler.run, hvControl, run_bind, run_pure, call, ask, h]
  · by_cases hs : w.currentState = STATE_HV_Enable <;> cases hb : w.buzzerTimerStarted <;>
      by_cases htimer : env.xTimerStart_result = pdPASS <;>
      by_cases h : env.sendCAN_result = HAL_OK <;> cases hr : env.errorHandlerReturns <;>
      simp [Handler.run, toggleEM, sendEMToggleMsg, fsmGetState, run_bind, run_pure, call,
        modify, read, ask, Error_Handler, hs, hb, h, hr, htimer]
  · cases h : env.emStateOn <;> simp [Handler.run, emControl, run_bind, run_pure, call, ask, h]
  · simp [Handler.run, defaultTransition_eq]

/-- Two invocations of a handler that start in the same state with the same
`buzzerTimerStarted` and get the same answers return the same state and leave the same
`buzzerTimerStarted`, whatever the other globals and the pin levels are. -/
theorem handler_congr (t : DcuTags) (h : Handler) (event : Nat) (env1 env2 : Env)
    (w1 w2 : World) (hs : w1.currentState = w2.currentState)
    (hb : w1.buzzerTimerStarted = w2.buzzerTimerStarted) (ha : env1.answers = env2.answers) :
    (h.run t event env1 w1).2 = (h.run t event env2 w2).2 ∧
      (h.run t event env1 w1).1.buzzerTimerStarted =
        (h.run t event env2 w2).1.buzzerTimerStarted := by
  simp only [Env.answers, Prod.mk.injEq] at ha
  obtain ⟨a1, a2, a3, a4, a5⟩ := ha
  cases h
  · by_cases h : env2.sendCAN_result = HAL_OK <;> cases hr : env2.errorHandlerReturns <;>
      simp [Handler.run, toggleHV, sendHVToggleMsg, run_bind, run_pure, call, modify, read, ask,
        Error_Handler, h, hr, a1, a5, hb]
  · cases h : env2.hvStateOn <;>
      simp [Handler.run, hvControl, run_bind, run_pure, call, ask, h, a3, hb]
  · by_cases hs2 : w2.currentState = STATE_HV_Enable <;> cases hb2 : w2.buzzerTimerStarted <;>
      by_cases htimer : env2.xTimerStart_result = pdPASS <;>
      by_cases h : env2.sendCAN_result = HAL_OK <;> cases hr : env2.errorHandlerReturns <;>
      simp [Handler.run, toggleEM, sendEMToggleMsg, fsmGetState, run_bind, run_pure, call,
        modify, read, ask, Error_Handler, hs, hb, hs2, hb2, h, hr, htimer, a1, a2, a5]
  · cases h : env2.emStateOn <;>
      simp [Handler.run, emControl, run_bind, run_pure, call, ask, h, a4, hb]
  · simp [Handler.run, defaultTransition_eq, hs, hb]


theorem dispatch_congr (t : DcuTags) (event : Nat) (env1 env2 : Env) (w1 w2 : World)
    (hs : w1.currentState = w2.currentState)
    (hb : w1.buzzerTimerStarted = w2.buzzerTimerStarted) (ha : env1.answers = env2.answers) :
    (dispatch t event env1 w1).2 = (dispatch t event env2 w2).2 ∧
      (dispatch t event env1 w1).1.currentState = (dispatch t event env2 w2).1.currentState ∧
      (dispatch t event env1 w1).1.buzzerTimerStarted =
        (dispatch t event env2 w2).1.buzzerTimerStarted := by
  cases hl : lookupTransition STATE_ANY EV_ANY (transitions t) w2.currentState event with
  | none =>
    rw [dispatch_of_no_lookup t event env1 w1 (hs ▸ hl),
      dispatch_of_no_lookup t event env2 w2 hl]
    exact ⟨rfl, hs, hb⟩
  | some entry =>
    rw [dispatch_of_lookup t event env1 w1 entry (hs ▸ hl),
      dispatch_of_lookup t event env2 w2 entry hl]
    obtain ⟨hr, hbz⟩ := handler_congr t entry.handler event env1 env2 w1 w2 hs hb ha
    have k1 := (handler_summary t entry.handler event env1 w1).1
    have k2 := (handler_summary t entry.handler event env2 w2).1
    rcases h1 : entry.handler.run t event env1 w1 with ⟨x1, r1⟩
    rcases h2 : entry.handler.run t event env2 w2 with ⟨x2, r2⟩
    rw [h1] at hr hbz k1
    rw [h2] at hr hbz k2
    simp only at hr hbz k1 k2
    subst hr
    cases r1 <;> simp [hbz, k1, k2, hs]

theorem dispatch_state_mem (t : DcuTags) (event : Nat) (env : Env) (w : World)
    (h : w.currentState ∈ [STATE_HV_Disable, t.STATE_HV_Toggle, STATE_HV_Enable,
      t.STATE_EM_Toggle, t.STATE_EM_Enable]) :
    (dispatch t event env w).1.currentState ∈ [STATE_HV_Disable, t.STATE_HV_Toggle,
      STATE_HV_Enable, t.STATE_EM_Toggle, t.STATE_EM_Enable] := by
  cases hl : lookupTransition STATE_ANY EV_ANY (transitions t) w.currentState event with
  | none => rw [dispatch_of_no_lookup t event env w hl]; exact h
  | some entry =>
    rw [dispatch_of_lookup t event env w entry hl]
    obtain ⟨k, hr⟩ := handler_summary t entry.handler event env w
    rcases h1 : entry.handler.run t event env w with ⟨x, r⟩
    rw [h1] at k hr
    simp only at k hr
    rcases hr with hr | ⟨s, hr, hs | hs⟩
    · subst hr; simpa [k] using h
    · subst hr; subst hs; simpa using h
    · subst hr; simpa using hs

theorem visitedStates_mem (t : DcuTags) (steps : List (Nat × Env)) :
    ∀ w : World, w.currentState ∈ [STATE_HV_Disable, t.STATE_HV_Toggle, STATE_HV_Enable,
        t.STATE_EM_Toggle, t.STATE_EM_Enable] →
      ∀ s ∈ visitedStates t steps w, s ∈ [STATE_HV_Disable, t.STATE_HV_Toggle,
        STATE_HV_Enable, t.STATE_EM_Toggle, t.STATE_EM_Enable] := by
  induction steps with
  | nil => intro w _ s hs; simp [visitedStates] at hs
  | cons step rest ih =>
    intro w hw s hs
    obtain ⟨event, env⟩ := step
    have hd := dispatch_state_mem t event env w hw
    simp only [visitedStates] at hs
    rcases h1 : dispatch t event env w with ⟨w1, r⟩
    rw [h1] at hs hd
    cases r with
    | none => simp at hs
    | some u =>
      simp only [List.mem_cons] at hs
      rcases hs with hs | hs
      · rw [hs]; exact hd
      · exact ih w1 hd s hs

theorem visitedStates_congr (t : DcuTags) (steps1 : List (Nat × Env)) :
    ∀ (steps2 : List (Nat × Env)) (w1 w2 : World),
      steps1.map (fun s => (s.1, s.2.answers)) = steps2.map (fun s => (s.1, s.2.answers)) →
      w1.currentState = w2.currentState →
      w1.buzzerTimerStarted = w2.buzzerTimerStarted →
      visitedStates t steps1 w1 = visitedStates t steps2 w2 := by
  induction steps1 with
  | nil =>
    intro steps2 w1 w2 hm _ _
    cases steps2 with
    | nil => rfl
    | cons a b => simp at hm
  | cons step1 rest1 ih =>
    intro steps2 w1 w2 hm hs hb
    cases steps2 with
    | nil => simp at hm
    | cons step2 rest2 =>
      obtain ⟨e1, env1⟩ := step1
      obtain ⟨e2, env2⟩ := step2
      simp only [List.map_cons, List.cons.injEq, Prod.mk.injEq] at hm
      obtain ⟨⟨he, ha⟩, hrest⟩ := hm
      subst he
      obtain ⟨hr, hs1, hb1⟩ := dispatch_congr t e1 env1 env2 w1 w2 hs hb ha
      simp only [visitedStates]
      rcases h1 : dispatch t e1 env1 w1 with ⟨x1, r1⟩
      rcases h2 : dispatch t e1 env2 w2 with ⟨x2, r2⟩
      rw [h1, h2] at hr hs1 hb1
      simp only at hr hs1 hb1
      subst hr
      cases r1 with
      | none => rfl
      | some u => simp only [hs1, ih rest2 x1 x2 hrest hs1 hb1]


/-- Counterexample to C11 as stated: two runs from `STATE_HV_Disable` over the same two events,
`EV_HV_Toggle` then `EV_CAN_Recieve`, visit different states, because `hvControl` returns the
state that `getHVState()` reports: HV on in one run, HV off in the other. -/
theorem determinism_counterexample :
    ([(EV_HV_Toggle, calmEnv), (sampleTags.EV_CAN_Recieve, calmEnv)].map Prod.fst =
        [(EV_HV_Toggle, calmEnv), (sampleTags.EV_CAN_Recieve, hvOffEnv)].map Prod.fst) ∧
      visitedStates sampleTags [(EV_HV_Toggle, calmEnv), (sampleTags.EV_CAN_Recieve, calmEnv)]
          (startWorld STATE_HV_Disable) = [sampleTags.STATE_HV_Toggle, STATE_HV_Enable] ∧
      visitedStates sampleTags [(EV_HV_Toggle, calmEnv), (sampleTags.EV_CAN_Recieve, hvOffEnv)]
          (startWorld STATE_HV_Disable) = [sampleTags.STATE_HV_Toggle, STATE_HV_Disable] ∧
      visitedStates sampleTags [(EV_HV_Toggle, calmEnv), (sampleTags.EV_CAN_Recieve, calmEnv)]
          (startWorld STATE_HV_Disable) ≠
        visitedStates sampleTags
          [(EV_HV_Toggle, calmEnv), (sampleTags.EV_CAN_Recieve, hvOffEnv)]
          (startWorld STATE_HV_Disable) := by
  decide

/-- C11, amended: with the table fixed, two runs of the dispatch step over the same event
sequence visit the same sequence of states provided they also get the same answers from
the outside at each step (status of the CAN send, result of the timer start, reported HV and
EM status, whether `Error_Handler` returns) and start in the same state with the same
`buzzerTimerStarted`.  The other globals, the trace and the pin levels have no influence. -/
theorem determinism_given_answers (t : DcuTags) (steps1 steps2 : List (Nat × Env))
    (w1 w2 : World)
    (hsteps : steps1.map (fun s => (s.1, s.2.answers)) =
      steps2.map (fun s => (s.1, s.2.answers)))
    (hs : w1.currentState = w2.currentState)
    (hb : w1.buzzerTimerStarted = w2.buzzerTimerStarted) :
    visitedStates t steps1 w1 = visitedStates t steps2 w2 :=
  visitedStates_congr t steps1 steps2 w1 w2 hsteps hs hb

/-- Witness of the amended C11: the same two events with the same answers, once from the
start-up globals and once with other CAN flags, an older trace and released buttons. -/
theorem determinism_given_answers_witness :
    visitedStates sampleTags [(EV_HV_Toggle, calmEnv), (sampleTags.EV_CAN_Recieve, calmEnv)]
        (startWorld STATE_HV_Disable) =
      visitedStates sampleTags
        [(EV_HV_Toggle, bounceEnv), (sampleTags.EV_CAN_Recieve, bounceEnv)]
        { startWorld STATE_HV_Disable with
            ButtonHVEnabled := 7, ButtonEMEnabled := 7, trace := [Effect.BUZZER_OFF] } :=
  determinism_given_answers sampleTags
    [(EV_HV_Toggle, calmEnv), (sampleTags.EV_CAN_Recieve, calmEnv)]
    [(EV_HV_Toggle, bounceEnv), (sampleTags.EV_CAN_Recieve, bounceEnv)]
    (startWorld STATE_HV_Disable)
    { startWorld STATE_HV_Disable with
        ButtonHVEnabled := 7, ButtonEMEnabled := 7, trace := [Effect.BUZZER_OFF] }
    (by decide) rfl rfl

/-! ## Initialisation of the automaton -/

/-- C12: the `transitions` table is not empty and its last entry is
`(STATE_ANY, EV_ANY, defaultTransition)`; `dcuFsmInit` hands the engine this table with
`transitionTableLength` equal to its number of entries, 7, so the fallback row is the last
of the entries the engine sees. -/
theorem fallback_row_is_last (t : DcuTags) (sizeof_DCU_Events_t : Nat) :
    transitions t ≠ [] ∧
      (transitions t).getLast? =
        some { statePattern := STATE_ANY, eventPattern := EV_ANY,
               handler := Handler.defaultTransition } ∧
      (dcuFsmInit_init t sizeof_DCU_Events_t).transitions = transitions t ∧
      (dcuFsmInit_init t sizeof_DCU_Events_t).transitionTableLength = 7 ∧
      (dcuFsmInit_init t sizeof_DCU_Events_t).transitionTableLength = (transitions t).length ∧
      ((dcuFsmInit_init t sizeof_DCU_Events_t).transitions.take
          (dcuFsmInit_init t sizeof_DCU_Events_t).transitionTableLength).getLast? =
        some { statePattern := STATE_ANY, eventPattern := EV_ANY,
               handler := Handler.defaultTransition } := by
  refine ⟨?_, rfl, rfl, rfl, rfl, rfl⟩
  simp [transitions]

/-- C14: `dcuFsmInit` calls `fsmInit` with the initial state `STATE_HV_Disable` and an `init`
holding the `transitions` table, the wildcards `STATE_ANY` / `EV_ANY` and a queue of 5
events; it returns `HAL_OK` exactly when `fsmInit` answers `HAL_OK`, and `HAL_ERROR` for
every other answer. -/
theorem dcuFsmInit_status (t : DcuTags) (sizeof_DCU_Events_t : Nat)
    (fsmInit : Nat → FSM_Init_Struct → Run Int) (env : Env) (w : World) :
    dcuFsmInit t sizeof_DCU_Events_t fsmInit env w =
        (match fsmInit STATE_HV_Disable (dcuFsmInit_init t sizeof_DCU_Events_t) env w with
          | (w1, some status) =>
            if status = HAL_OK then
              ({ w1 with trace := w1.trace ++ [Effect.DEBUG_PRINT] }, some HAL_OK)
            else ({ w1 with trace := w1.trace ++ [Effect.ERROR_PRINT] }, some HAL_ERROR)
          | (w1, none) => (w1, none)) ∧
      ((dcuFsmInit_init t sizeof_DCU_Events_t).eventQueueLength = 5 ∧
        (dcuFsmInit_init t sizeof_DCU_Events_t).ST_ANY = STATE_ANY ∧
        (dcuFsmInit_init t sizeof_DCU_Events_t).EV_ANY = EV_ANY ∧
        (dcuFsmInit_init t sizeof_DCU_Events_t).transitions = transitions t) ∧
      ∀ (w1 : World) (status : Int),
        fsmInit STATE_HV_Disable (dcuFsmInit_init t sizeof_DCU_Events_t) env w =
            (w1, some status) →
          ((dcuFsmInit t sizeof_DCU_Events_t fsmInit env w).2 = some HAL_OK ↔
              status = HAL_OK) ∧
            (status ≠ HAL_OK →
              (dcuFsmInit t sizeof_DCU_Events_t fsmInit env w).2 = some HAL_ERROR) := by
  have heq : dcuFsmInit t sizeof_DCU_Events_t fsmInit env w =
      (match fsmInit STATE_HV_Disable (dcuFsmInit_init t sizeof_DCU_Events_t) env w with
        | (w1, some status) =>
          if status = HAL_OK then
            ({ w1 with trace := w1.trace ++ [Effect.DEBUG_PRINT] }, some HAL_OK)
          else ({ w1 with trace := w1.trace ++ [Effect.ERROR_PRINT] }, some HAL_ERROR)
        | (w1, none) => (w1, none)) := by
    simp only [dcuFsmInit, run_bind]
    rcases fsmInit STATE_HV_Disable (dcuFsmInit_init t sizeof_DCU_Events_t) env w with
      ⟨w1, _ | status⟩
    · rfl
    · by_cases h : status = HAL_OK <;> simp [h, run_bind, run_pure, call]
  refine ⟨heq, ⟨rfl, rfl, rfl, rfl⟩, ?_⟩
  intro w1 status hcall
  rw [heq, hcall]
  have hne : HAL_ERROR ≠ HAL_OK := by decide
  by_cases h : status = HAL_OK <;> simp [h, hne]

/-- Witness of C14: an `fsmInit` that answers `HAL_ERROR` makes `dcuFsmInit` return
`HAL_ERROR`. -/
theorem dcuFsmInit_status_witness :
    (dcuFsmInit sampleTags 4 (sampleFsmInit HAL_ERROR) calmEnv
      (startWorld STATE_Self_Check)).2 = some HAL_ERROR :=
  ((dcuFsmInit_status sampleTags 4 (sampleFsmInit HAL_ERROR) calmEnv
    (startWorld STATE_Self_Check)).2.2
      { startWorld STATE_Self_Check with currentState := STATE_HV_Disable } HAL_ERROR
      rfl).2 (by decide)

/-! ## Reachable states and shape of the table -/

/-- C17: started in `STATE_HV_Disable`, the initial state `dcuFsmInit` passes to `fsmInit`,
the automaton is, after any finite sequence of events and whatever the outside answers,
in one of `STATE_HV_Disable`, `STATE_HV_Toggle`, `STATE_HV_Enable`, `STATE_EM_Toggle`,
`STATE_EM_Enable`; as these tags differ from `STATE_ANY` and `STATE_Failure_Fatal`, it is
never in the wildcard state nor in `STATE_Failure_Fatal`. -/
theorem reachable_states (t : DcuTags) (steps : List (Nat × Env)) (w : World)
    (h0 : w.currentState = STATE_HV_Disable) :
    (∀ s ∈ w.currentState :: visitedStates t steps w,
        s ∈ [STATE_HV_Disable, t.STATE_HV_Toggle, STATE_HV_Enable, t.STATE_EM_Toggle,
          t.STATE_EM_Enable]) ∧
      (STATE_ANY ∉ [t.STATE_HV_Toggle, t.STATE_EM_Toggle, t.STATE_EM_Enable] →
        STATE_Failure_Fatal ∉ [t.STATE_HV_Toggle, t.STATE_EM_Toggle, t.STATE_EM_Enable] →
        ∀ s ∈ w.currentState :: visitedStates t steps w,
          s ≠ STATE_ANY ∧ s ≠ STATE_Failure_Fatal) := by
  have hw : w.currentState ∈ [STATE_HV_Disable, t.STATE_HV_Toggle, STATE_HV_Enable,
      t.STATE_EM_Toggle, t.STATE_EM_Enable] := by rw [h0]; simp
  have hall : ∀ s ∈ w.currentState :: visitedStates t steps w,
      s ∈ [STATE_HV_Disable, t.STATE_HV_Toggle, STATE_HV_Enable, t.STATE_EM_Toggle,
        t.STATE_EM_Enable] := by
    intro s hs
    rcases List.mem_cons.mp hs with hs | hs
    · rw [hs]; exact hw
    · exact visitedStates_mem t steps w hw s hs
  refine ⟨hall, fun hany hfatal s hs => ?_⟩
  have hmem := hall s hs
  have k1 : STATE_HV_Disable ≠ STATE_ANY ∧ STATE_HV_Disable ≠ STATE_Failure_Fatal := by decide
  have k2 : STATE_HV_Enable ≠ STATE_ANY ∧ STATE_HV_Enable ≠ STATE_Failure_Fatal := by decide
  simp only [List.mem_cons, List.mem_singleton, List.not_mem_nil, or_false, not_or] at hany hfatal hmem
  rcases hmem with h | h | h | h | h <;> subst h
  · exact k1
  · exact ⟨Ne.symm hany.1, Ne.symm hfatal.1⟩
  · exact k2
  · exact ⟨Ne.symm hany.2.1, Ne.symm hfatal.2.1⟩
  · exact ⟨Ne.symm hany.2.2, Ne.symm hfatal.2.2⟩

theorem lookup_row_toggleEM_motors (t : DcuTags) (hd : t.Distinct) :
    lookupTransition STATE_ANY EV_ANY (transitions t) t.STATE_EM_Enable t.EV_EM_Toggle =
      some { statePattern := t.STATE_EM_Enable, eventPattern := t.EV_EM_Toggle,
             handler := Handler.toggleEM } := by
  simp only [DcuTags.Distinct, List.nodup_cons, List.mem_cons, List.mem_singleton, not_or,
    List.not_mem_nil, not_false_eq_true, List.nodup_nil, and_true] at hd
  simp only [lookupTransition, transitions, entryMatches]
  split_ifs <;> simp_all

theorem lookup_row_toggleHV_enabled (t : DcuTags) (hd : t.Distinct) :
    lookupTransition STATE_ANY EV_ANY (transitions t) STATE_HV_Enable EV_HV_Toggle =
      some { statePattern := STATE_HV_Enable, eventPattern := EV_HV_Toggle,
             handler := Handler.toggleHV } := by
  simp only [DcuTags.Distinct, List.nodup_cons, List.mem_cons, List.mem_singleton, not_or,
    List.not_mem_nil, not_false_eq_true, List.nodup_nil, and_true] at hd
  simp only [lookupTransition, transitions, entryMatches]
  split_ifs <;> simp_all

/-- C15: no row of the table is shadowed.  Every entry is the first match of some pair; each
of the six concrete rows is the first match of its own `(state, event)` pair; the six keys
are pairwise different and none holds a wildcard; every pair that is not one of the six
keys resolves to the fallback row. -/
theorem every_row_reachable (t : DcuTags) (hd : t.Distinct) :
    (∀ entry ∈ transitions t, ∃ state event,
        lookupTransition STATE_ANY EV_ANY (transitions t) state event = some entry) ∧
      (∀ entry ∈ concreteRows t,
        lookupTransition STATE_ANY EV_ANY (transitions t) entry.statePattern
          entry.eventPattern = some entry) ∧
      ((concreteRows t).map fun entry => (entry.statePattern, entry.eventPattern)).Nodup ∧
      (∀ entry ∈ concreteRows t,
        entry.statePattern ≠ STATE_ANY ∧ entry.eventPattern ≠ EV_ANY) ∧
      (∀ state event,
        (state, event) ∉
            ((concreteRows t).map fun entry => (entry.statePattern, entry.eventPattern)) →
          lookupTransition STATE_ANY EV_ANY (transitions t) state event =
            some { statePattern := STATE_ANY, eventPattern := EV_ANY,
                   handler := Handler.defaultTransition }) := by
  have hown : ∀ entry ∈ concreteRows t,
      lookupTransition STATE_ANY EV_ANY (transitions t) entry.statePattern
        entry.eventPattern = some entry := by
    intro entry he
    simp only [concreteRows, transitions, List.dropLast, List.mem_cons, List.mem_singleton,
      List.not_mem_nil, or_false] at he
    rcases he with h | h | h | h | h | h <;> subst h
    · exact lookup_row_toggleHV_disabled t
    · exact lookup_row_hvControl t hd
    · exact lookup_row_toggleEM_enabled t hd
    · exact lookup_row_emControl t hd
    · exact lookup_row_toggleEM_motors t hd
    · exact lookup_row_toggleHV_enabled t hd
  simp only [DcuTags.Distinct, List.nodup_cons, List.mem_cons, List.mem_singleton, not_or,
    List.not_mem_nil, not_false_eq_true, List.nodup_nil, and_true] at hd
  have hwild : ∀ entry ∈ concreteRows t,
      entry.statePattern ≠ STATE_ANY ∧ entry.eventPattern ≠ EV_ANY := by
    simp only [concreteRows, transitions, List.dropLast, List.mem_cons, List.mem_singleton,
      forall_eq_or_imp, forall_eq, List.not_mem_nil, false_imp_iff, implies_true, and_true]
    simp_all
  have hfall : ∀ state event,
      (state, event) ∉
          ((concreteRows t).map fun entry => (entry.statePattern, entry.eventPattern)) →
        lookupTransition STATE_ANY EV_ANY (transitions t) state event =
          some { statePattern := STATE_ANY, eventPattern := EV_ANY,
                 handler := Handler.defaultTransition } := by
    intro state event hn
    apply lookup_fallback
    intro entry he
    have hw := hwild entry he
    have hne : ¬ (entry.statePattern = state ∧ entry.eventPattern = event) := by
      rintro ⟨h1, h2⟩
      exact hn (List.mem_map.mpr ⟨entry, he, by rw [h1, h2]⟩)
    simp only [entryMatches, Bool.and_eq_false_imp, Bool.or_eq_true, beq_iff_eq,
      Bool.or_eq_false_iff, beq_eq_false_iff_ne]
    intro h1
    rcases h1 with h1 | h1
    · exact ⟨fun h2 => hne ⟨h1, h2⟩, hw.2⟩
    · exact absurd h1 hw.1
  refine ⟨?_, hown, ?_, hwild, hfall⟩
  · intro entry he
    by_cases hc : entry ∈ concreteRows t
    · exact ⟨_, _, hown entry hc⟩
    · refine ⟨STATE_ANY, EV_ANY, ?_⟩
      have hlast : entry = (⟨STATE_ANY, EV_ANY, Handler.defaultTransition⟩ : Transition_t) := by
        simp only [concreteRows, transitions, List.dropLast, List.mem_cons, List.mem_singleton,
          List.not_mem_nil, or_false, not_or] at hc he
        rcases he with h | h | h | h | h | h | h
        · exact absurd h hc.1
        · exact absurd h hc.2.1
        · exact absurd h hc.2.2.1
        · exact absurd h hc.2.2.2.1
        · exact absurd h hc.2.2.2.2.1
        · exact absurd h hc.2.2.2.2.2
        · exact h
      rw [hlast]
      apply hfall
      intro hm
      obtain ⟨r, hr, hk⟩ := List.mem_map.mp hm
      simp only [Prod.mk.injEq] at hk
      exact (hwild r hr).1 hk.1
  · simp only [concreteRows, transitions, List.dropLast, List.map_cons, List.map_nil,
      List.nodup_cons, List.mem_cons, List.mem_singleton, Prod.mk.injEq, not_or,
      List.not_mem_nil, not_false_eq_true, List.nodup_nil, and_true]
    have e1 : ¬ t.EV_EM_Toggle = EV_HV_Toggle := fun h => hd.2.1.1 h.symm
    have e2 : ¬ t.EV_CAN_Recieve = EV_HV_Toggle := fun h => hd.2.1.2.1 h.symm
    simp_all


/-- Witness of C17: the world left by `dcuFsmInit`, then three events, the last with a CAN
send that fails. -/
theorem reachable_states_witness :
    (dcuFsmInit sampleTags 4 (sampleFsmInit HAL_OK) calmEnv
        (startWorld STATE_Self_Check)).1.currentState = STATE_HV_Disable ∧
      ∀ s ∈ visitedStates sampleTags
          [(EV_HV_Toggle, calmEnv), (sampleTags.EV_CAN_Recieve, calmEnv),
            (sampleTags.EV_EM_Toggle, failingSendEnv)]
          (dcuFsmInit sampleTags 4 (sampleFsmInit HAL_OK) calmEnv
            (startWorld STATE_Self_Check)).1,
        s ≠ STATE_ANY ∧ s ≠ STATE_Failure_Fatal :=
  ⟨by decide, fun s hs =>
    (reachable_states sampleTags
      [(EV_HV_Toggle, calmEnv), (sampleTags.EV_CAN_Recieve, calmEnv),
        (sampleTags.EV_EM_Toggle, failingSendEnv)]
      (dcuFsmInit sampleTags 4 (sampleFsmInit HAL_OK) calmEnv
        (startWorld STATE_Self_Check)).1 (by decide)).2 (by decide) (by decide) s
      (List.mem_cons_of_mem _ hs)⟩

/-- Witness of C15: with the sample tags each concrete row answers its own pair. -/
theorem every_row_reachable_witness :
    sampleTags.Distinct ∧
      ∀ entry ∈ concreteRows sampleTags,
        lookupTransition STATE_ANY EV_ANY (transitions sampleTags) entry.statePattern
          entry.eventPattern = some entry :=
  ⟨by decide, (every_row_reachable sampleTags (by decide)).2.1⟩

/-! ## Buzzer, interlock and CAN messages -/

/-- The external calls of a dispatch step are those of the handler it invokes. -/
theorem dispatch_effects (t : DcuTags) (event : Nat) (env : Env) (w : World)
    (entry : Transition_t)
    (h : lookupTransition STATE_ANY EV_ANY (transitions t) w.currentState event = some entry) :
    effectsOf (dispatch t event) env w = effectsOf (entry.handler.run t event) env w := by
  simp only [effectsOf, dispatch_of_lookup t event env w entry h]
  rcases entry.handler.run t event env w with ⟨w1, _ | next⟩ <;> rfl

theorem dispatch_effects_none (t : DcuTags) (event : Nat) (env : Env) (w : World)
    (h : lookupTransition STATE_ANY EV_ANY (transitions t) w.currentState event = none) :
    effectsOf (dispatch t event) env w = [] := by
  simp [effectsOf, dispatch_of_no_lookup t event env w h]

/-- The only button-event messages are the one of `toggleHV`, with flags `(1, 0)`, and the
one of `toggleEM`, with flags `(0, 1)`. -/
theorem handler_canSends (t : DcuTags) (h : Handler) (event : Nat) (env : Env) (w : World) :
    ∀ m ∈ canSends (effectsOf (h.run t event) env w),
      (m = (1, 0) ∧ h = Handler.toggleHV) ∨ (m = (0, 1) ∧ h = Handler.toggleEM) := by
  cases h
  · simp only [Handler.run, toggleHV_effects]
    by_cases h : env.sendCAN_result = HAL_OK <;> simp [h, canSends]
  · simp [Handler.run, effectsOf, hvControl_eq, canSends]
  · by_cases hs : w.currentState = STATE_HV_Enable <;> cases hb : w.buzzerTimerStarted <;>
      by_cases htimer : env.xTimerStart_result = pdPASS <;>
      by_cases h : env.sendCAN_result = HAL_OK <;> cases hr : env.errorHandlerReturns <;>
      simp [Handler.run, effectsOf, toggleEM, sendEMToggleMsg, fsmGetState, run_bind, run_pure,
        call, modify, read, ask, Error_Handler, hs, hb, h, hr, htimer, canSends]
  · simp [Handler.run, effectsOf, emControl_eq, canSends]
  · simp [Handler.run, effectsOf, defaultTransition_eq, canSends]

/-- Counterexample to C16 as stated: in `STATE_HV_Enable` with the buzzer not started, a
timer start that fails and an `Error_Handler` that does not come back, `toggleEM` neither
turns the buzzer on nor returns `STATE_EM_Toggle`. -/
theorem buzzer_on_counterexample :
    ((startWorld STATE_HV_Enable).currentState = STATE_HV_Enable ∧
        (startWorld STATE_HV_Enable).buzzerTimerStarted = false) ∧
      Effect.BUZZER_ON ∉ effectsOf (toggleEM sampleTags sampleTags.EV_EM_Toggle) timerFailEnv
        (startWorld STATE_HV_Enable) ∧
      (toggleEM sampleTags sampleTags.EV_EM_Toggle timerFailEnv
        (startWorld STATE_HV_Enable)).1.buzzerOutput = false ∧
      (toggleEM sampleTags sampleTags.EV_EM_Toggle timerFailEnv
        (startWorld STATE_HV_Enable)).2 = none ∧
      (toggleEM sampleTags sampleTags.EV_EM_Toggle timerFailEnv
        (startWorld STATE_HV_Enable)).2 ≠ some sampleTags.STATE_EM_Toggle := by
  decide

/-- C16, amended: `toggleEM` calls `xTimerStart` if and only if the current state is
`STATE_HV_Enable` and `buzzerTimerStarted` is false, and turns the buzzer on only in that
case; in that case it sets `buzzerTimerStarted` and turns the buzzer on provided the timer
start answers `pdPASS` or `Error_Handler` returns.  Invoked in any other state, or with the
buzzer already started, it leaves `buzzerTimerStarted` and the buzzer output as they were
and calls neither.  It returns no value other than `STATE_EM_Toggle`, and it returns
`STATE_EM_Toggle` if and only if `Error_Handler` is not called or comes back. -/
theorem toggleEM_buzzer (t : DcuTags) (event : Nat) (env : Env) (w : World) :
    (Effect.xTimerStart_buzzer ∈ effectsOf (toggleEM t event) env w ↔
        (w.currentState = STATE_HV_Enable ∧ w.buzzerTimerStarted = false)) ∧
      (Effect.BUZZER_ON ∈ effectsOf (toggleEM t event) env w →
        (w.currentState = STATE_HV_Enable ∧ w.buzzerTimerStarted = false)) ∧
      ((w.currentState = STATE_HV_Enable ∧ w.buzzerTimerStarted = false) →
        (env.xTimerStart_result = pdPASS ∨ env.errorHandlerReturns = true) →
          Effect.BUZZER_ON ∈ effectsOf (toggleEM t event) env w ∧
            (toggleEM t event env w).1.buzzerTimerStarted = true ∧
            (toggleEM t event env w).1.buzzerOutput = true) ∧
      (¬ (w.currentState = STATE_HV_Enable ∧ w.buzzerTimerStarted = false) →
        (toggleEM t event env w).1.buzzerTimerStarted = w.buzzerTimerStarted ∧
          (toggleEM t event env w).1.buzzerOutput = w.buzzerOutput ∧
          Effect.xTimerStart_buzzer ∉ effectsOf (toggleEM t event) env w ∧
          Effect.BUZZER_ON ∉ effectsOf (toggleEM t event) env w) ∧
      ((toggleEM t event env w).2 = some t.STATE_EM_Toggle ∨
        (toggleEM t event env w).2 = none) ∧
      ((toggleEM t event env w).2 = some t.STATE_EM_Toggle ↔
        (Effect.Error_Handler ∉ effectsOf (toggleEM t event) env w ∨
          env.errorHandlerReturns = true)) := by
  by_cases hs : w.currentState = STATE_HV_Enable <;> cases hb : w.buzzerTimerStarted <;>
    by_cases htimer : env.xTimerStart_result = pdPASS <;>
    by_cases h : env.sendCAN_result = HAL_OK <;> cases hr : env.errorHandlerReturns <;>
    simp [effectsOf, toggleEM, sendEMToggleMsg, fsmGetState, run_bind, run_pure,
      call, modify, read, ask, Error_Handler, hs, hb, h, hr, htimer]


/-- A row that calls `toggleHV` is matched only by `EV_HV_Toggle` in `STATE_HV_Disable` or in
`STATE_HV_Enable`. -/
theorem toggleHV_rows (t : DcuTags) (entry : Transition_t) (state event : Nat)
    (he : entry ∈ transitions t) (hh : entry.handler = Handler.toggleHV)
    (hm : entryMatches STATE_ANY EV_ANY entry state event = true) :
    event = EV_HV_Toggle ∧ (state = STATE_HV_Disable ∨ state = STATE_HV_Enable) := by
  have k1 : ¬ STATE_HV_Disable = STATE_ANY := by decide
  have k2 : ¬ STATE_HV_Enable = STATE_ANY := by decide
  have k3 : ¬ EV_HV_Toggle = EV_ANY := by decide
  simp only [transitions, List.mem_cons, List.mem_singleton, List.not_mem_nil, or_false] at he
  rcases he with h | h | h | h | h | h | h <;> subst h <;>
    simp [entryMatches, k1, k2, k3] at hh hm
  · exact ⟨hm.2.symm, Or.inl hm.1.symm⟩
  · exact ⟨hm.2.symm, Or.inr hm.1.symm⟩

/-- C18 (high-voltage interlock): in `STATE_EM_Enable`, `EV_HV_Toggle` resolves to the
fallback row, so the dispatch only prints the diagnostic: the state stays and no message
is sent.  Whatever the state and the event, a message with the HV request flag is sent only
when `EV_HV_Toggle` is dispatched in `STATE_HV_Disable` or in `STATE_HV_Enable`. -/
theorem hv_interlock (t : DcuTags) (hd : t.Distinct) (env : Env) (w : World) :
    (w.currentState = t.STATE_EM_Enable →
        lookupTransition STATE_ANY EV_ANY (transitions t) w.currentState EV_HV_Toggle =
            some { statePattern := STATE_ANY, eventPattern := EV_ANY,
                   handler := Handler.defaultTransition } ∧
          dispatch t EV_HV_Toggle env w =
            ({ w with trace := w.trace ++ [Effect.ERROR_PRINT] }, some ())) ∧
      ∀ event, (1, 0) ∈ canSends (effectsOf (dispatch t event) env w) →
        event = EV_HV_Toggle ∧
          (w.currentState = STATE_HV_Disable ∨ w.currentState = STATE_HV_Enable) := by
  constructor
  · intro hs
    have hrows : ∀ entry ∈ concreteRows t,
        entryMatches STATE_ANY EV_ANY entry w.currentState EV_HV_Toggle = false := by
      simp only [DcuTags.Distinct, List.nodup_cons, List.mem_cons, List.mem_singleton, not_or,
        List.not_mem_nil, not_false_eq_true, List.nodup_nil, and_true] at hd
      have e1 : ¬ t.EV_EM_Toggle = EV_HV_Toggle := fun h => hd.2.1.1 h.symm
      have e2 : ¬ t.EV_CAN_Recieve = EV_HV_Toggle := fun h => hd.2.1.2.1 h.symm
      have s1 : ¬ STATE_HV_Disable = t.STATE_EM_Enable := hd.1.1.2.2.2.1
      have s2 : ¬ STATE_HV_Enable = t.STATE_EM_Enable := hd.1.2.2.1.2.1
      have s3 : ¬ STATE_HV_Disable = STATE_ANY := by decide
      have s4 : ¬ STATE_HV_Enable = STATE_ANY := by decide
      simp [concreteRows, transitions, entryMatches, hs, e1, e2, s1, s2, s3, s4, hd]
    have hl := lookup_fallback t w.currentState EV_HV_Toggle hrows
    refine ⟨hl, ?_⟩
    rw [dispatch_of_lookup t EV_HV_Toggle env w _ hl]
    rfl
  · intro event hsend
    cases hl : lookupTransition STATE_ANY EV_ANY (transitions t) w.currentState event with
    | none =>
      rw [dispatch_effects_none t event env w hl] at hsend
      simp [canSends] at hsend
    | some entry =>
      rw [dispatch_effects t event env w entry hl] at hsend
      obtain ⟨he, hm⟩ := lookup_some_matches _ _ _ _ _ _ hl
      rcases handler_canSends t entry.handler event env w _ hsend with ⟨_, hh⟩ | ⟨hne, _⟩
      · exact toggleHV_rows t entry w.currentState event he hh hm
      · simp at hne

/-- C19: in `STATE_HV_Toggle` and in `STATE_EM_Toggle`, every event other than
`EV_CAN_Recieve` resolves to the fallback row, and its dispatch only prints the diagnostic:
the state stays and no CAN message is sent.  The dispatch leaves the
awaiting-confirmation state if and only if the event is `EV_CAN_Recieve`. -/
theorem awaiting_confirmation (t : DcuTags) (hd : t.Distinct) (env : Env) (w : World)
    (event : Nat)
    (hs : w.currentState = t.STATE_HV_Toggle ∨ w.currentState = t.STATE_EM_Toggle) :
    (event ≠ t.EV_CAN_Recieve →
        lookupTransition STATE_ANY EV_ANY (transitions t) w.currentState event =
            some { statePattern := STATE_ANY, eventPattern := EV_ANY,
                   handler := Handler.defaultTransition } ∧
          dispatch t event env w =
            ({ w with trace := w.trace ++ [Effect.ERROR_PRINT] }, some ())) ∧
      ((dispatch t event env w).1.currentState ≠ w.currentState ↔
        event = t.EV_CAN_Recieve) := by
  have hd0 := hd
  simp only [DcuTags.Distinct, List.nodup_cons, List.mem_cons, List.mem_singleton, not_or,
    List.not_mem_nil, not_false_eq_true, List.nodup_nil, and_true] at hd
  have hother : event ≠ t.EV_CAN_Recieve →
      lookupTransition STATE_ANY EV_ANY (transitions t) w.currentState event =
          some { statePattern := STATE_ANY, eventPattern := EV_ANY,
                 handler := Handler.defaultTransition } ∧
        dispatch t event env w =
          ({ w with trace := w.trace ++ [Effect.ERROR_PRINT] }, some ()) := by
    intro hev
    have hrows : ∀ entry ∈ concreteRows t,
        entryMatches STATE_ANY EV_ANY entry w.currentState event = false := by
      have e1 : ¬ t.EV_CAN_Recieve = event := fun h => hev h.symm
      have s3 : ¬ STATE_HV_Disable = STATE_ANY := by decide
      have s4 : ¬ STATE_HV_Enable = STATE_ANY := by decide
      have a1 : ¬ t.STATE_EM_Toggle = t.STATE_HV_Toggle := fun h => hd.1.2.1.2.1 h.symm
      have a2 : ¬ t.STATE_EM_Enable = t.STATE_HV_Toggle := fun h => hd.1.2.1.2.2.1 h.symm
      have a3 : ¬ t.STATE_EM_Enable = t.STATE_EM_Toggle := fun h => hd.1.2.2.2.1.1 h.symm
      have b1 : ¬ STATE_HV_Enable = t.STATE_HV_Toggle := fun h => hd.1.2.1.1 h.symm
      rcases hs with hs | hs <;>
        simp [concreteRows, transitions, entryMatches, hs, e1, s3, s4, a1, a2, a3, b1, hd]
    have hl := lookup_fallback t w.currentState event hrows
    refine ⟨hl, ?_⟩
    rw [dispatch_of_lookup t event env w _ hl]
    rfl
  refine ⟨hother, ?_⟩
  constructor
  · intro hne
    by_contra hev
    rw [(hother hev).2] at hne
    exact hne rfl
  · intro hev
    subst hev
    have b1 : ¬ STATE_HV_Enable = t.STATE_HV_Toggle := fun h => hd.1.2.1.1 h.symm
    have a3 : ¬ t.STATE_EM_Enable = t.STATE_EM_Toggle := fun h => hd.1.2.2.2.1.1 h.symm
    rcases hs with hs | hs
    · rw [dispatch_of_lookup t t.EV_CAN_Recieve env w _ (hs ▸ lookup_row_hvControl t hd0)]
      cases hon : env.hvStateOn <;> simp [Handler.run, hvControl_eq, hon, hs, hd, b1]
    · rw [dispatch_of_lookup t t.EV_CAN_Recieve env w _ (hs ▸ lookup_row_emControl t hd0)]
      cases hon : env.emStateOn <;> simp [Handler.run, emControl_eq, hon, hs, hd, a3]

/-- C20: each call of `sendCAN_DCU_buttonEvents` is made with exactly one request flag set,
whatever the flags were before: `ButtonHVEnabled = 1`, `ButtonEMEnabled = 0` from
`sendHVToggleMsg` and `toggleHV`; `ButtonHVEnabled = 0`, `ButtonEMEnabled = 1` from
`sendEMToggleMsg` and `toggleEM`; and so for every message sent by a dispatch step. -/
theorem one_request_flag (t : DcuTags) (event : Nat) (env : Env) (w : World) :
    canSends (effectsOf sendHVToggleMsg env w) = [(1, 0)] ∧
      canSends (effectsOf sendEMToggleMsg env w) = [(0, 1)] ∧
      canSends (effectsOf (toggleHV t event) env w) = [(1, 0)] ∧
      (∀ m ∈ canSends (effectsOf (toggleEM t event) env w), m = (0, 1)) ∧
      (∀ m ∈ canSends (effectsOf (dispatch t event) env w),
        (m.1 = 1 ∧ m.2 = 0) ∨ (m.1 = 0 ∧ m.2 = 1)) := by
  refine ⟨?_, ?_, ?_, ?_, ?_⟩
  · simp [effectsOf, sendHVToggleMsg, run_bind, run_pure, call, modify, read, ask, canSends]
  · simp [effectsOf, sendEMToggleMsg, run_bind, run_pure, call, modify, read, ask, canSends]
  · rw [toggleHV_effects]
    by_cases h : env.sendCAN_result = HAL_OK <;> simp [h, canSends]
  · intro m hm
    rcases handler_canSends t Handler.toggleEM event env w m hm with ⟨_, hh⟩ | ⟨hm, _⟩
    · cases hh
    · exact hm
  · intro m hm
    cases hl : lookupTransition STATE_ANY EV_ANY (transitions t) w.currentState event with
    | none =>
      rw [dispatch_effects_none t event env w hl] at hm
      simp [canSends] at hm
    | some entry =>
      rw [dispatch_effects t event env w entry hl] at hm
      rcases handler_canSends t entry.handler event env w m hm with ⟨h, _⟩ | ⟨h, _⟩ <;>
        simp [h]


/-- Witness of the amended C16: invoked in `STATE_EM_Enable`, `toggleEM` leaves the buzzer
alone. -/
theorem toggleEM_buzzer_witness :
    ¬ ((startWorld sampleTags.STATE_EM_Enable).currentState = STATE_HV_Enable ∧
        (startWorld sampleTags.STATE_EM_Enable).buzzerTimerStarted = false) ∧
      Effect.xTimerStart_buzzer ∉ effectsOf (toggleEM sampleTags sampleTags.EV_EM_Toggle)
        calmEnv (startWorld sampleTags.STATE_EM_Enable) ∧
      (toggleEM sampleTags sampleTags.EV_EM_Toggle calmEnv
        (startWorld sampleTags.STATE_EM_Enable)).1.buzzerOutput = false :=
  ⟨by decide,
    ((toggleEM_buzzer sampleTags sampleTags.EV_EM_Toggle calmEnv
      (startWorld sampleTags.STATE_EM_Enable)).2.2.2.1 (by decide)).2.2.1,
    ((toggleEM_buzzer sampleTags sampleTags.EV_EM_Toggle calmEnv
      (startWorld sampleTags.STATE_EM_Enable)).2.2.2.1 (by decide)).2.1⟩

/-- Witness of C18: the HV button pressed while the motors are enabled. -/
theorem hv_interlock_witness :
    sampleTags.Distinct ∧
      dispatch sampleTags EV_HV_Toggle calmEnv (startWorld sampleTags.STATE_EM_Enable) =
        ({ startWorld sampleTags.STATE_EM_Enable with trace := [Effect.ERROR_PRINT] },
          some ()) :=
  ⟨by decide,
    ((hv_interlock sampleTags (by decide) calmEnv
      (startWorld sampleTags.STATE_EM_Enable)).1 rfl).2⟩

/-- Witness of C19: the HV button pressed again while the answer of the BMU is awaited. -/
theorem awaiting_confirmation_witness :
    sampleTags.Distinct ∧
      dispatch sampleTags EV_HV_Toggle calmEnv (startWorld sampleTags.STATE_HV_Toggle) =
        ({ startWorld sampleTags.STATE_HV_Toggle with trace := [Effect.ERROR_PRINT] },
          some ()) :=
  ⟨by decide,
    ((awaiting_confirmation sampleTags (by decide) calmEnv
      (startWorld sampleTags.STATE_HV_Toggle) EV_HV_Toggle (Or.inl rfl)).1 (by decide)).2⟩

end DCU
